import Mathlib

/-!
Bill book: invoice totals and solar subsidy.

A shallow embedding of the two computations of the front end:

* `calculateSubsidy`, `handleCapacityChange`, the inline change handlers and
  `handleSubmit` of `src/frontend/src/pages/SolarProjectForm.js`;
* `addItem`, `removeItem`, `updateItem`, `calculateTotals` and `handleSubmit`
  of `src/frontend/src/pages/InvoiceForm.js`.

Numbers. A JavaScript number is modelled by `JSNum`: `NaN`, the two infinities, or a
finite value. Finite values are exact rationals: the rounding of binary64
arithmetic is not modelled, and neither is the sign of zero (which none of
the modelled code can observe: it never divides by a computed value). Where
a property hangs on the rounding of the machine arithmetic, `JSNum.round64`,
`subtotal64` and `calculateSubsidy64` carry it out.

A form field holds either a number or a string (`JSVal`); `parseFloat` and
the implicit `ToNumber` conversion are modelled on the characters of the
string, following the grammar of ECMAScript's `StrDecimalLiteral` and
`StringNumericLiteral`.
-/

namespace BillBook

/-! ## JavaScript numbers -/

/-- A JavaScript number: `NaN`, a finite value, `Infinity` or `-Infinity`. -/
inductive JSNum where
  | nan
  | fin (q : ℚ)
  | posInf
  | negInf
deriving DecidableEq, Repr

namespace JSNum

instance : Zero JSNum := ⟨fin 0⟩

/-- The built-in `isNaN` on a number. -/
def isNaN : JSNum → Bool
  | nan => true
  | _ => false

/-- The comparison `x <= y`: false as soon as one side is `NaN`. -/
def le : JSNum → JSNum → Bool
  | fin a, fin b => decide (a ≤ b)
  | fin _, posInf => true
  | negInf, fin _ => true
  | negInf, negInf => true
  | negInf, posInf => true
  | posInf, posInf => true
  | _, _ => false

/-- The comparison `x < y`: false as soon as one side is `NaN`. -/
def lt : JSNum → JSNum → Bool
  | fin a, fin b => decide (a < b)
  | fin _, posInf => true
  | negInf, fin _ => true
  | negInf, posInf => true
  | _, _ => false

/-- Unary minus. -/
def neg : JSNum → JSNum
  | nan => nan
  | fin a => fin (-a)
  | posInf => negInf
  | negInf => posInf

/-- The sum `x + y` of two numbers. -/
def add : JSNum → JSNum → JSNum
  | fin a, fin b => fin (a + b)
  | fin _, posInf => posInf
  | fin _, negInf => negInf
  | posInf, fin _ => posInf
  | posInf, posInf => posInf
  | negInf, fin _ => negInf
  | negInf, negInf => negInf
  | _, _ => nan

/-- The difference `x - y` of two numbers. -/
def sub (x y : JSNum) : JSNum := add x (neg y)

/-- The product `x * y` of two numbers; zero times an infinity is `NaN`. -/
def mul : JSNum → JSNum → JSNum
  | fin a, fin b => fin (a * b)
  | fin a, posInf => if a = 0 then nan else if 0 < a then posInf else negInf
  | fin a, negInf => if a = 0 then nan else if 0 < a then negInf else posInf
  | posInf, fin b => if b = 0 then nan else if 0 < b then posInf else negInf
  | negInf, fin b => if b = 0 then nan else if 0 < b then negInf else posInf
  | posInf, posInf => posInf
  | posInf, negInf => negInf
  | negInf, posInf => negInf
  | negInf, negInf => posInf
  | _, _ => nan

/-- The quotient `x / y` of two numbers (a zero divisor is taken as `+0`). -/
def div : JSNum → JSNum → JSNum
  | fin a, fin b =>
    if b = 0 then (if a = 0 then nan else if 0 < a then posInf else negInf)
    else fin (a / b)
  | fin _, posInf => fin 0
  | fin _, negInf => fin 0
  | posInf, fin b => if 0 ≤ b then posInf else negInf
  | negInf, fin b => if 0 ≤ b then negInf else posInf
  | _, _ => nan

instance : Add JSNum := ⟨add⟩
instance : Sub JSNum := ⟨sub⟩
instance : Mul JSNum := ⟨mul⟩
instance : Div JSNum := ⟨div⟩

/-- Truthiness of a number: everything but `NaN` and zero. -/
def truthy : JSNum → Bool
  | nan => false
  | fin a => decide (a ≠ 0)
  | _ => true

/-- The idiom `x || 0` on a number `x`. -/
def orZero (x : JSNum) : JSNum := if truthy x then x else fin 0

end JSNum

/-! ## Field values and their conversion to numbers -/

/-- What a form field holds: a number or a string. -/
inductive JSVal where
  | num (x : JSNum)
  | str (s : String)
deriving DecidableEq, Repr

/-- The characters `TrimString` strips: ECMAScript `WhiteSpace` and
`LineTerminator`. -/
def isWhiteSpace (c : Char) : Bool :=
  let n := c.toNat
  n == 0x09 || n == 0x0A || n == 0x0B || n == 0x0C || n == 0x0D || n == 0x20 ||
  n == 0xA0 || n == 0x1680 || (0x2000 ≤ n && n ≤ 0x200A) || n == 0x2028 ||
  n == 0x2029 || n == 0x202F || n == 0x205F || n == 0x3000 || n == 0xFEFF

/-- The value of a run of decimal digits. -/
def digitsToNat (ds : List Char) : Nat :=
  ds.foldl (fun n c => 10 * n + (c.toNat - 48)) 0

/-- The power of ten with an integer exponent. -/
def pow10 (e : Int) : ℚ :=
  if 0 ≤ e then (10 : ℚ) ^ e.toNat else 1 / (10 : ℚ) ^ (-e).toNat

/-- Strips the literal `lit` from the front of `cs`, if it is there. -/
def matchLiteral : List Char → List Char → Option (List Char)
  | [], cs => some cs
  | _ :: _, [] => none
  | p :: ps, c :: cs => if p = c then matchLiteral ps cs else none

/-- The longest `ExponentPart` at the front of `cs`: its value and what
follows it; exponent `0` and `cs` itself when there is none. -/
def exponentPart (cs : List Char) : Int × List Char :=
  match cs with
  | [] => (0, cs)
  | c :: rest =>
    if c = 'e' ∨ c = 'E' then
      let signed : Bool × List Char :=
        match rest with
        | [] => (false, rest)
        | s :: r => if s = '+' then (false, r) else if s = '-' then (true, r) else (false, rest)
      let ds := signed.2.takeWhile Char.isDigit
      if ds = [] then (0, cs)
      else ((if signed.1 then -(digitsToNat ds : Int) else (digitsToNat ds : Int)),
            signed.2.dropWhile Char.isDigit)
    else (0, cs)

/-- The longest `StrUnsignedDecimalLiteral` at the front of `cs`: its value
and what follows it. -/
def strUnsignedDecimalLiteral (cs : List Char) : Option (JSNum × List Char) :=
  match matchLiteral "Infinity".toList cs with
  | some rest => some (JSNum.posInf, rest)
  | none =>
    let ip := cs.takeWhile Char.isDigit
    let r1 := cs.dropWhile Char.isDigit
    let frac : List Char × List Char :=
      match r1 with
      | [] => ([], r1)
      | c :: r =>
        if c = '.' then (r.takeWhile Char.isDigit, r.dropWhile Char.isDigit) else ([], r1)
    if ip = [] ∧ frac.1 = [] then none
    else
      let ex := exponentPart frac.2
      some (JSNum.fin ((digitsToNat (ip ++ frac.1) : ℚ) / 10 ^ frac.1.length * pow10 ex.1), ex.2)

/-- The longest `StrDecimalLiteral` (an optional sign, then an unsigned
literal) at the front of `cs`. -/
def strDecimalLiteral (cs : List Char) : Option (JSNum × List Char) :=
  match cs with
  | [] => none
  | c :: rest =>
    if c = '+' then strUnsignedDecimalLiteral rest
    else if c = '-' then
      (strUnsignedDecimalLiteral rest).map (fun r => (JSNum.neg r.1, r.2))
    else strUnsignedDecimalLiteral cs

/-- The built-in `parseFloat`: a number is returned as it is (it survives the
round trip through its string form); of a string, the longest decimal literal
after the leading white space is read, and `NaN` is returned when there is
none. -/
def parseFloat : JSVal → JSNum
  | .num x => x
  | .str s =>
    match strDecimalLiteral (s.toList.dropWhile isWhiteSpace) with
    | some r => r.1
    | none => JSNum.nan

/-- The value of a digit in base `base`, if the character is one. -/
def digitOfBase (base : Nat) (c : Char) : Option Nat :=
  let v : Nat :=
    if c.isDigit then c.toNat - 48
    else if 97 ≤ c.toNat ∧ c.toNat ≤ 102 then c.toNat - 87
    else if 65 ≤ c.toNat ∧ c.toNat ≤ 70 then c.toNat - 55
    else base
  if v < base then some v else none

/-- The value of a run of digits in base `base`; `none` if a character is not
a digit of that base. -/
def digitsOfBase (base : Nat) : List Char → Nat → Option Nat
  | [], acc => some acc
  | c :: cs, acc =>
    match digitOfBase base c with
    | some v => digitsOfBase base cs (base * acc + v)
    | none => none

/-- The radix a prefix letter announces (`0x`, `0o`, `0b`). -/
def radixOf (c : Char) : Option Nat :=
  if c = 'x' ∨ c = 'X' then some 16
  else if c = 'o' ∨ c = 'O' then some 8
  else if c = 'b' ∨ c = 'B' then some 2
  else none

/-- A whole `StrDecimalLiteral`: `NaN` if anything follows it. -/
def wholeDecimalLiteral (cs : List Char) : JSNum :=
  match strDecimalLiteral cs with
  | some (v, []) => v
  | _ => JSNum.nan

/-- The value of a trimmed `StrNumericLiteral`. -/
def strNumericLiteral (cs : List Char) : JSNum :=
  match cs with
  | z :: c :: ds =>
    if z = '0' then
      match radixOf c with
      | some b =>
        if ds = [] then JSNum.nan
        else
          match digitsOfBase b ds 0 with
          | some v => JSNum.fin v
          | none => JSNum.nan
      | none => wholeDecimalLiteral cs
    else wholeDecimalLiteral cs
  | _ => wholeDecimalLiteral cs

/-- The conversion `ToNumber` the arithmetic operators apply: a number is
itself; a string is trimmed on both sides, the empty string is `0`, and
otherwise the whole string has to be a numeric literal. -/
def toNumber : JSVal → JSNum
  | .num x => x
  | .str s =>
    let cs := ((s.toList.dropWhile isWhiteSpace).reverse.dropWhile isWhiteSpace).reverse
    if cs = [] then JSNum.fin 0 else strNumericLiteral cs

/-- Strict equality `===` of two field values (`NaN` differs from itself). -/
def strictEq : JSVal → JSVal → Bool
  | .num x, .num y => !x.isNaN && decide (x = y)
  | .str s, .str t => decide (s = t)
  | _, _ => false

/-! ## The solar subsidy calculator (`SolarProjectForm.js`) -/

/-- The function `calculateSubsidy` of `SolarProjectForm.js`, in exact
arithmetic; `calculateSubsidy64` is the same function with every operation
rounded to binary64. -/
def calculateSubsidy (capacity : JSVal) : JSNum :=
  let kw := parseFloat capacity
  if kw.isNaN || kw.le (.fin 0) then .fin 0
  else if kw.le (.fin 2) then kw * .fin 30000
  else if kw.le (.fin 3) then .fin 60000 + ((kw - .fin 2) * .fin 18000)
  else .fin 78000


/-! ## The invoice form (`InvoiceForm.js`) -/

/-- A product of the product list the form fetches. -/
structure Product where
  id : JSVal
  name : JSVal
  price : JSVal
  tax_rate : JSVal
deriving DecidableEq, Repr

/-- One line item of the form. The fields the user edits hold what the input
delivered (a string) or what the code put there (a number); `amount` only ever
holds a number, the one `addItem` or `updateItem` stored. -/
structure Item where
  product_id : JSVal
  product_name : JSVal
  quantity : JSVal
  price : JSVal
  tax_rate : JSVal
  discount : JSVal
  amount : JSNum
deriving DecidableEq, Repr

/-- The property names `updateItem` can be asked to set. -/
inductive Field where
  | product_id
  | product_name
  | quantity
  | price
  | tax_rate
  | discount
  | amount
deriving DecidableEq, Repr

/-- The state `formData` of the invoice form. -/
structure InvoiceFormData where
  customer_id : JSVal
  invoice_date : JSVal
  due_date : JSVal
  discount : JSVal
  notes : JSVal
deriving DecidableEq, Repr

/-- What `calculateTotals` returns. -/
structure Totals where
  subtotal : JSNum
  tax : JSNum
  total : JSNum
deriving DecidableEq, Repr

/-- The item `addItem` appends. -/
def defaultItem : Item :=
  { product_id := .str "", product_name := .str "", quantity := .num (.fin 1),
    price := .num (.fin 0), tax_rate := .num (.fin 18), discount := .num (.fin 0),
    amount := .fin 0 }

/-- The function `addItem` of `InvoiceForm.js`: the new item list. -/
def addItem (items : List Item) : List Item :=
  items ++ [defaultItem]

/-- The function `removeItem` of `InvoiceForm.js`: the new item list. -/
def removeItem (items : List Item) (index : Nat) : List Item :=
  (items.enum.filter (fun p => p.1 != index)).map (fun p => p.2)

/-- The assignment `item[field] = value`. An assignment to `amount` is not
recorded: `updateItem` overwrites `amount` with the recomputed number before
the item can be read. -/
def setField (item : Item) (field : Field) (value : JSVal) : Item :=
  match field with
  | .product_id => { item with product_id := value }
  | .product_name => { item with product_name := value }
  | .quantity => { item with quantity := value }
  | .price => { item with price := value }
  | .tax_rate => { item with tax_rate := value }
  | .discount => { item with discount := value }
  | .amount => item

/-- The function `updateItem` of `InvoiceForm.js`: the new item list, or `none`
when `items[index]` is undefined and the assignment to its field throws. -/
def updateItem (products : List Product) (items : List Item) (index : Nat) (field : Field)
    (value : JSVal) : Option (List Item) :=
  match items[index]? with
  | none => none
  | some item =>
    let item1 := setField item field value
    let item2 :=
      if field = .product_id then
        match products.find? (fun p => strictEq p.id value) with
        | some product =>
          { item1 with
            product_name := product.name, price := product.price, tax_rate := product.tax_rate }
        | none => item1
      else item1
    -- Calculate amount
    let qty := (parseFloat item2.quantity).orZero
    let price := (parseFloat item2.price).orZero
    let discount := (parseFloat item2.discount).orZero
    some (items.set index { item2 with amount := qty * price - discount })

/-- The function `calculateTotals` of `InvoiceForm.js`. -/
def calculateTotals (items : List Item) (formData : InvoiceFormData) : Totals :=
  let subtotal := items.foldl (fun sum item => sum + item.amount) (.fin 0)
  let tax :=
    items.foldl (fun sum item => sum + (item.amount * toNumber item.tax_rate) / .fin 100) (.fin 0)
  let discount := (parseFloat formData.discount).orZero
  let total := subtotal + tax - discount
  { subtotal := subtotal, tax := tax, total := total }

/-! ## The rounding of the specification -/

/-- The rounding `round2` of the specification (section 4.1): to two decimal
places, a half away from zero. The source has no counterpart: it rounds
nowhere in these computations. -/
def specRound2 : JSNum → JSNum
  | .fin q =>
    if 0 ≤ q then .fin ((⌊q * 100 + 1 / 2⌋ : ℤ) / 100)
    else .fin (-((⌊-q * 100 + 1 / 2⌋ : ℤ) / 100))
  | x => x

/-- The finite value of a number, `0` for `NaN` and the infinities. -/
def JSNum.finVal : JSNum → ℚ
  | .fin q => q
  | _ => 0

/-- The line a user gets by adding an item and typing the quantity `0.5` and
the price `0.25`. -/
def eighthItem : Item :=
  { defaultItem with quantity := .str "0.5", price := .str "0.25", amount := .fin (1 / 8) }

/-- Adds an item to the empty list, then types the quantity `0.5` and the
price `0.25` into it. -/
def eighthSession : Option (List Item) :=
  (updateItem [] (addItem []) 0 .quantity (.str "0.5")).bind
    (fun items => updateItem [] items 0 .price (.str "0.25"))

/-- An invoice form with no discount. -/
def plainFormData : InvoiceFormData :=
  { customer_id := .str "", invoice_date := .str "", due_date := .str "",
    discount := .num (.fin 0), notes := .str "" }

/-! ## Submitting the invoice (`InvoiceForm.js`) -/

/-- Truthiness of a field value: a string unless it is empty, a number unless
it is `NaN` or zero. -/
def JSVal.truthy : JSVal → Bool
  | .num x => x.truthy
  | .str s => decide (s ≠ "")

/-- What `handleSubmit` of `InvoiceForm.js` does with the form: an error toast
and an early return, or the request `POST /invoices` with the body
`{...formData, items}`. -/
inductive SubmitAction where
  | toastError (message : String)
  | postInvoice (formData : InvoiceFormData) (items : List Item)
deriving DecidableEq, Repr

/-- The function `handleSubmit` of `InvoiceForm.js`, up to the request it
sends. -/
def handleSubmit (formData : InvoiceFormData) (items : List Item) : SubmitAction :=
  if !formData.customer_id.truthy then .toastError "Please select a customer"
  else if items.length = 0 then .toastError "Please add at least one item"
  else .postInvoice formData items

/-! ## The solar project form (`SolarProjectForm.js`) -/

/-- The state `formData` of the solar project form. -/
structure SolarFormData where
  customer_id : JSVal
  project_name : JSVal
  site_address : JSVal
  system_capacity_kw : JSVal
  panel_type : JSVal
  panel_quantity : JSVal
  inverter_type : JSVal
  inverter_quantity : JSVal
  estimated_cost : JSVal
  subsidy_amount : JSVal
  discom_name : JSVal
  consumer_number : JSVal
  start_date : JSVal
  notes : JSVal
deriving DecidableEq, Repr

/-- The initial state of the solar project form; `today` is the date string
the component computes when it is mounted. -/
def initialSolarFormData (today : String) : SolarFormData :=
  { customer_id := .str "", project_name := .str "", site_address := .str "",
    system_capacity_kw := .str "", panel_type := .str "", panel_quantity := .str "",
    inverter_type := .str "", inverter_quantity := .str "", estimated_cost := .str "",
    subsidy_amount := .str "", discom_name := .str "", consumer_number := .str "",
    start_date := .str today, notes := .str "" }

/-- The function `handleCapacityChange` of `SolarProjectForm.js`: the new
state. -/
def handleCapacityChange (formData : SolarFormData) (value : JSVal) : SolarFormData :=
  { formData with
    system_capacity_kw := value,
    subsidy_amount := .num (calculateSubsidy value) }

/-- The inputs of the solar project form whose change handler is the inline
`setFormData({ ...formData, field: value })`. The capacity input has
`handleCapacityChange`; the subsidy input is `readOnly` and has no handler. -/
inductive SolarInput where
  | customer_id
  | project_name
  | site_address
  | start_date
  | panel_type
  | panel_quantity
  | inverter_type
  | inverter_quantity
  | estimated_cost
  | discom_name
  | consumer_number
  | notes
deriving DecidableEq, Repr

/-- The inline change handler of an input: the new state. -/
def setSolarInput (formData : SolarFormData) (input : SolarInput) (value : JSVal) :
    SolarFormData :=
  match input with
  | .customer_id => { formData with customer_id := value }
  | .project_name => { formData with project_name := value }
  | .site_address => { formData with site_address := value }
  | .start_date => { formData with start_date := value }
  | .panel_type => { formData with panel_type := value }
  | .panel_quantity => { formData with panel_quantity := value }
  | .inverter_type => { formData with inverter_type := value }
  | .inverter_quantity => { formData with inverter_quantity := value }
  | .estimated_cost => { formData with estimated_cost := value }
  | .discom_name => { formData with discom_name := value }
  | .consumer_number => { formData with consumer_number := value }
  | .notes => { formData with notes := value }

/-- A user operation on the solar project form that changes its state. -/
inductive SolarEvent where
  | capacity (value : JSVal)
  | input (field : SolarInput) (value : JSVal)
deriving DecidableEq, Repr

/-- The state after one user operation. -/
def solarStep (formData : SolarFormData) : SolarEvent → SolarFormData
  | .capacity value => handleCapacityChange formData value
  | .input field value => setSolarInput formData field value

/-- The state after a sequence of user operations. -/
def solarRun (formData : SolarFormData) (events : List SolarEvent) : SolarFormData :=
  events.foldl solarStep formData

/-- The state of a form that was opened and then saw the operations `before`,
the entry of the capacity `value`, and the operations `after`. -/
def solarSession (today : String) (before : List SolarEvent) (value : JSVal)
    (after : List SolarEvent) : SolarFormData :=
  solarRun (initialSolarFormData today) (before ++ [.capacity value] ++ after)

/-- What `handleSubmit` of `SolarProjectForm.js` does with the form: an error
toast and an early return, or the request `POST /solar/projects`. Of the body
`{...formData, ...}` the three fields overwritten with `parseFloat` are kept
apart; the two overwritten with `parseInt` (the panel and inverter
quantities) are not modelled. -/
inductive SolarSubmitAction where
  | toastError (message : String)
  | postProject (formData : SolarFormData) (system_capacity_kw : JSNum)
      (estimated_cost : JSNum) (subsidy_amount : JSNum)
deriving DecidableEq, Repr

/-- The function `handleSubmit` of `SolarProjectForm.js`, up to the request it
sends. -/
def solarHandleSubmit (formData : SolarFormData) : SolarSubmitAction :=
  if !formData.customer_id.truthy then .toastError "Please select a customer"
  else
    .postProject formData (parseFloat formData.system_capacity_kw)
      (parseFloat formData.estimated_cost) (parseFloat formData.subsidy_amount)

/-! ## Binary64 addition -/

/-- The nearest integer, a tie going to the even one. -/
def roundHalfEven (x : ℚ) : ℤ :=
  if x - ⌊x⌋ < 1 / 2 then ⌊x⌋
  else if 1 / 2 < x - ⌊x⌋ then ⌊x⌋ + 1
  else if ⌊x⌋ % 2 = 0 then ⌊x⌋
  else ⌊x⌋ + 1

/-- The rational nearest to `q` that has a 53-bit significand and an exponent
of at least `-1022`, a tie going to the even significand: the binary64 value
of `q` unless that overflows. -/
def roundBinary64 (q : ℚ) : ℚ :=
  if q = 0 then 0
  else
    let e : ℤ := max (Int.log 2 |q|) (-1022)
    roundHalfEven (q / 2 ^ (e - 52)) * 2 ^ (e - 52)

/-- The binary64 number a result is rounded to: an infinity past the largest
finite value. -/
def JSNum.round64 : JSNum → JSNum
  | .fin q =>
    if (2 : ℚ) ^ (1024 : ℕ) ≤ |roundBinary64 q| then (if 0 < q then .posInf else .negInf)
    else .fin (roundBinary64 q)
  | x => x

/-- The subtotal `items.reduce((sum, item) => sum + item.amount, 0)` of
`calculateTotals`, each addition rounded to binary64 as the machine does. -/
def subtotal64 (items : List Item) : JSNum :=
  items.foldl (fun sum item => (sum + item.amount).round64) (.fin 0)

/-! ## Sample sessions of the invoice form -/

/-- The `isFinite` test on a number. -/
def JSNum.isFinite : JSNum → Bool
  | .fin _ => true
  | _ => false

/-- The line with price `10` and discount `50` (quantity `1`). -/
def overDiscountItem : Item :=
  { defaultItem with price := .str "10", discount := .str "50", amount := .fin (-40) }

/-- Adds an item, then sets its price to `10` and its discount to `50`. -/
def overDiscountSession : Option (List Item) :=
  (updateItem [] (addItem []) 0 .price (.str "10")).bind
    (fun items => updateItem [] items 0 .discount (.str "50"))

/-- The line with quantity `-2` and price `500`. -/
def negativeItem : Item :=
  { defaultItem with quantity := .str "-2", price := .str "500", amount := .fin (-1000) }

/-- Adds an item, then types the price `500` and the quantity `-2`. -/
def negativeSession : Option (List Item) :=
  (updateItem [] (addItem []) 0 .price (.str "500")).bind
    (fun items => updateItem [] items 0 .quantity (.str "-2"))

/-- The line with the quantity `abc` and price `500`. -/
def coercedItem : Item :=
  { defaultItem with quantity := .str "abc", price := .str "500", amount := .fin 0 }

/-- Adds an item, then sets the price `500` and the quantity `abc`. -/
def coercedSession : Option (List Item) :=
  (updateItem [] (addItem []) 0 .price (.str "500")).bind
    (fun items => updateItem [] items 0 .quantity (.str "abc"))

/-- The line of the examples, quantity `2` at price `500`, tax rate `18`. -/
def firstItem : Item :=
  { defaultItem with quantity := .str "2", price := .str "500", amount := .fin 1000 }

/-- The second line of the two-item example: quantity `1` at price `300`,
discount `50`, tax rate `12`. -/
def secondItem : Item :=
  { defaultItem with
    price := .str "300", discount := .str "50", tax_rate := .str "12", amount := .fin 250 }

/-- Adds an item, then types the quantity `2` and the price `500`. -/
def oneItemSession : Option (List Item) :=
  (updateItem [] (addItem []) 0 .quantity (.str "2")).bind
    (fun items => updateItem [] items 0 .price (.str "500"))

/-- Goes on from `oneItemSession`: adds a second item and sets its price to
`300`, its discount to `50` and its tax rate to `12`. -/
def twoItemSession : Option (List Item) :=
  ((oneItemSession.bind
    (fun items => updateItem [] (addItem items) 1 .price (.str "300"))).bind
    (fun items => updateItem [] items 1 .discount (.str "50"))).bind
    (fun items => updateItem [] items 1 .tax_rate (.str "12"))

/-- An invoice form with a customer and the discount typed as `text`. -/
def formWithDiscount (text : String) : InvoiceFormData :=
  { customer_id := .str "customer-1", invoice_date := .str "2024-01-01", due_date := .str "",
    discount := .str text, notes := .str "" }

/-! ## Three lines whose amounts are not binary fractions -/

/-- The line with quantity `1` and price `0.1`: its amount is the binary64
number nearest to `0.1`. -/
def tenthItem : Item :=
  { defaultItem with price := .str "0.1", amount := .fin (3602879701896397 / 2 ^ 55) }

/-- The line with quantity `1` and price `0.2`: its amount is the binary64
number nearest to `0.2`. -/
def fifthItem : Item :=
  { defaultItem with price := .str "0.2", amount := .fin (3602879701896397 / 2 ^ 54) }

/-- The line with quantity `1` and price `0.3`: its amount is the binary64
number nearest to `0.3`. -/
def threeTenthsItem : Item :=
  { defaultItem with price := .str "0.3", amount := .fin (5404319552844595 / 2 ^ 54) }

/-! ## The subsidy calculator on binary64 -/

/-- The function `calculateSubsidy` of `SolarProjectForm.js` with the number
read and every product, difference and sum rounded to binary64, as the machine
computes them. -/
def calculateSubsidy64 (capacity : JSVal) : JSNum :=
  let kw := (parseFloat capacity).round64
  if kw.isNaN || kw.le (.fin 0) then .fin 0
  else if kw.le (.fin 2) then (kw * .fin 30000).round64
  else if kw.le (.fin 3) then
    (.fin 60000 + ((kw - .fin 2).round64 * .fin 18000).round64).round64
  else .fin 78000

/-! ## Sessions of the invoice form -/

/-- A user operation on the item list of the invoice form. -/
inductive InvoiceEvent where
  | add
  | remove (index : Nat)
  | update (index : Nat) (field : Field) (value : JSVal)
deriving DecidableEq, Repr

/-- The item list after one user operation. When `updateItem` throws,
`setItems` is not reached and the list stays as it was. -/
def invoiceStep (products : List Product) (items : List Item) : InvoiceEvent → List Item
  | .add => addItem items
  | .remove index => removeItem items index
  | .update index field value =>
    match updateItem products items index field value with
    | some newItems => newItems
    | none => items

/-- The item list after a sequence of user operations. -/
def invoiceRun (products : List Product) (items : List Item) (events : List InvoiceEvent) :
    List Item :=
  events.foldl (invoiceStep products) items

/-- The amount of a line is the one its fields give:
`num(quantity) * num(price) - num(discount)`, where `num(x)` is
`parseFloat(x) || 0`. -/
def amountOk (item : Item) : Prop :=
  item.amount = (parseFloat item.quantity).orZero * (parseFloat item.price).orZero
    - (parseFloat item.discount).orZero

/-- The property `item[field]` of a line. -/
def getField (item : Item) : Field → JSVal
  | .product_id => item.product_id
  | .product_name => item.product_name
  | .quantity => item.quantity
  | .price => item.price
  | .tax_rate => item.tax_rate
  | .discount => item.discount
  | .amount => .num item.amount

/-- The state of the invoice form that `handleSubmit` can see or set. -/
structure InvoiceFormState where
  formData : InvoiceFormData
  items : List Item
  loading : Bool
deriving DecidableEq, Repr

/-- The state of the form when `handleSubmit` of `InvoiceForm.js` returns early
or has sent its request: the early returns call no state setter, the other
path has called `setLoading(true)`. -/
def handleSubmitState (state : InvoiceFormState) : InvoiceFormState :=
  match handleSubmit state.formData state.items with
  | .toastError _ => state
  | .postInvoice _ _ => { state with loading := true }

/-- A session on the empty list: two items are added, the second is removed,
and the quantity `2` and the price `500` are typed into the first. -/
def sampleEvents : List InvoiceEvent :=
  [.add, .add, .remove 1, .update 0 .quantity (.str "2"), .update 0 .price (.str "500")]

/-- A product list of two products. -/
def sampleProducts : List Product :=
  [{ id := .str "p-1", name := .str "Panel", price := .num (.fin 12000), tax_rate := .num (.fin 12) },
   { id := .str "p-2", name := .str "Inverter", price := .num (.fin 45000),
     tax_rate := .num (.fin 18) }]

/-- The line `updateItem` puts in the place of `item`: the body of
`updateItem` between the copy of the list and `setItems`. -/
def updatedLine (products : List Product) (item : Item) (field : Field) (value : JSVal) :
    Item :=
  let item1 := setField item field value
  let item2 :=
    if field = .product_id then
      match products.find? (fun p => strictEq p.id value) with
      | some product =>
        { item1 with
          product_name := product.name, price := product.price, tax_rate := product.tax_rate }
      | none => item1
    else item1
  { item2 with
    amount := (parseFloat item2.quantity).orZero * (parseFloat item2.price).orZero
      - (parseFloat item2.discount).orZero }

/-! ## Arithmetic on finite numbers -/

namespace JSNum

theorem fin_add_fin (a b : ℚ) : fin a + fin b = fin (a + b) := rfl

theorem fin_sub_fin (a b : ℚ) : fin a - fin b = fin (a - b) := by
  show add (fin a) (neg (fin b)) = fin (a - b)
  simp [add, neg, sub_eq_add_neg]

theorem fin_mul_fin (a b : ℚ) : fin a * fin b = fin (a * b) := rfl

theorem fin_div_fin (a b : ℚ) (hb : b ≠ 0) : fin a / fin b = fin (a / b) := by
  show div (fin a) (fin b) = fin (a / b)
  simp [div, hb]

theorem zero_def : (0 : JSNum) = fin 0 := rfl

end JSNum

/-! ## The subsidy as a function of the parsed capacity -/

/-- A number is parsed to itself. -/
theorem parseFloat_num (x : JSNum) : parseFloat (.num x) = x := rfl

/-- The subsidy of a capacity that parses to the finite number `kw`. -/
theorem calculateSubsidy_of_fin {capacity : JSVal} {kw : ℚ}
    (h : parseFloat capacity = .fin kw) :
    calculateSubsidy capacity =
      if kw ≤ 0 then .fin 0
      else if kw ≤ 2 then .fin (kw * 30000)
      else if kw ≤ 3 then .fin (60000 + (kw - 2) * 18000)
      else .fin 78000 := by
  simp only [calculateSubsidy, h, JSNum.isNaN, JSNum.le, Bool.false_or, decide_eq_true_eq,
    JSNum.fin_add_fin, JSNum.fin_sub_fin, JSNum.fin_mul_fin]

/-- The subsidy of a capacity that does not parse to a number is `0`. -/
theorem calculateSubsidy_of_nan {capacity : JSVal} (h : parseFloat capacity = .nan) :
    calculateSubsidy capacity = .fin 0 := by
  simp [calculateSubsidy, h, JSNum.isNaN]

/-- The subsidy of an infinite capacity is the maximum. -/
theorem calculateSubsidy_of_posInf {capacity : JSVal} (h : parseFloat capacity = .posInf) :
    calculateSubsidy capacity = .fin 78000 := by
  simp [calculateSubsidy, h, JSNum.isNaN, JSNum.le]

/-- The subsidy of a capacity of minus infinity is `0`. -/
theorem calculateSubsidy_of_negInf {capacity : JSVal} (h : parseFloat capacity = .negInf) :
    calculateSubsidy capacity = .fin 0 := by
  simp [calculateSubsidy, h, JSNum.isNaN, JSNum.le]

/-- Every subsidy is a finite amount between `0` and `78000`. -/
theorem calculateSubsidy_range (capacity : JSVal) :
    ∃ q : ℚ, calculateSubsidy capacity = .fin q ∧ 0 ≤ q ∧ q ≤ 78000 := by
  cases h : parseFloat capacity with
  | nan => exact ⟨0, calculateSubsidy_of_nan h, le_refl _, by norm_num⟩
  | posInf => exact ⟨78000, calculateSubsidy_of_posInf h, by norm_num, le_refl _⟩
  | negInf => exact ⟨0, calculateSubsidy_of_negInf h, le_refl _, by norm_num⟩
  | fin kw =>
    rw [calculateSubsidy_of_fin h]
    split_ifs with h0 h2 h3
    · exact ⟨0, rfl, le_refl _, by norm_num⟩
    · exact ⟨kw * 30000, rfl, by linarith, by linarith⟩
    · exact ⟨60000 + (kw - 2) * 18000, rfl, by linarith, by linarith⟩
    · exact ⟨78000, rfl, by norm_num, le_refl _⟩

/-! ## Claims on the subsidy calculator -/

/-- In exact arithmetic a capacity that parses to `kw` with `0 < kw ≤ 2` gets
the subsidy `kw * 30000`. -/
theorem calculateSubsidy_tier1_exact (capacity : JSVal) (kw : ℚ)
    (hkw : parseFloat capacity = .fin kw) (h0 : 0 < kw) (h2 : kw ≤ 2) :
    calculateSubsidy capacity = .fin (kw * 30000) := by
  rw [calculateSubsidy_of_fin hkw, if_neg (not_le.mpr h0), if_pos h2]

/-- Evaluates the parsers on a string literal. -/
theorem parseFloat_one_point_five : parseFloat (.str "1.5") = .fin (3 / 2) := by
  simp [parseFloat, strDecimalLiteral, strUnsignedDecimalLiteral, matchLiteral, exponentPart,
    digitsToNat, pow10, isWhiteSpace, List.takeWhile, List.dropWhile, Char.isDigit]
  norm_num

/-- In exact arithmetic a capacity that parses to `kw` with `2 < kw ≤ 3` gets
the subsidy `60000 + (kw - 2) * 18000`. -/
theorem calculateSubsidy_tier2_exact (capacity : JSVal) (kw : ℚ)
    (hkw : parseFloat capacity = .fin kw) (h2 : 2 < kw) (h3 : kw ≤ 3) :
    calculateSubsidy capacity = .fin (60000 + (kw - 2) * 18000) := by
  rw [calculateSubsidy_of_fin hkw, if_neg (by linarith), if_neg (not_le.mpr h2), if_pos h3]

/-- Evaluates the parsers on a string literal. -/
theorem parseFloat_two_point_five : parseFloat (.str "2.5") = .fin (5 / 2) := by
  simp [parseFloat, strDecimalLiteral, strUnsignedDecimalLiteral, matchLiteral, exponentPart,
    digitsToNat, pow10, isWhiteSpace, List.takeWhile, List.dropWhile, Char.isDigit]
  norm_num

/-- C3: a capacity that parses to a number above `3`, `Infinity` included,
gets the flat maximum `78000`. -/
theorem calculateSubsidy_tier3 (capacity : JSVal)
    (h3 : JSNum.lt (.fin 3) (parseFloat capacity) = true) :
    calculateSubsidy capacity = .fin 78000 := by
  cases h : parseFloat capacity with
  | nan => simp [h, JSNum.lt] at h3
  | posInf => exact calculateSubsidy_of_posInf h
  | negInf => simp [h, JSNum.lt] at h3
  | fin kw =>
    have hk : 3 < kw := by simpa [h, JSNum.lt] using h3
    rw [calculateSubsidy_of_fin h, if_neg (by linarith), if_neg (by linarith),
      if_neg (by linarith)]

/-- Evaluates the parsers on a string literal. -/
theorem parseFloat_thousand : parseFloat (.str "1e3") = .fin 1000 := by
  simp [parseFloat, strDecimalLiteral, strUnsignedDecimalLiteral, matchLiteral, exponentPart,
    digitsToNat, pow10, isWhiteSpace, List.takeWhile, List.dropWhile, Char.isDigit]
  norm_num

/-- C3 at the input string `1e3` (a thousand kilowatts): the subsidy is `78000`. -/
theorem calculateSubsidy_tier3_witness :
    JSNum.lt (.fin 3) (parseFloat (.str "1e3")) = true ∧
      calculateSubsidy (.str "1e3") = .fin 78000 :=
  have h : JSNum.lt (.fin 3) (parseFloat (.str "1e3")) = true := by
    rw [parseFloat_thousand]; simp [JSNum.lt]; norm_num
  ⟨h, calculateSubsidy_tier3 (.str "1e3") h⟩

/-- Evaluates the parsers on a string literal. -/
theorem parseFloat_two : parseFloat (.str "2") = .fin 2 := by
  simp [parseFloat, strDecimalLiteral, strUnsignedDecimalLiteral, matchLiteral, exponentPart,
    digitsToNat, pow10, isWhiteSpace, List.takeWhile, List.dropWhile, Char.isDigit]

/-- Evaluates the parsers on a string literal. -/
theorem parseFloat_three : parseFloat (.str "3") = .fin 3 := by
  simp [parseFloat, strDecimalLiteral, strUnsignedDecimalLiteral, matchLiteral, exponentPart,
    digitsToNat, pow10, isWhiteSpace, List.takeWhile, List.dropWhile, Char.isDigit]

/-- C4: at the tier boundaries the lower tier applies, `calculateSubsidy(2) = 60000`
and `calculateSubsidy(3) = 78000`, and `calculateSubsidy(2.5) = 69000`; this
holds for the numbers and for the strings the input field delivers. -/
theorem calculateSubsidy_boundaries :
    calculateSubsidy (.num (.fin 2)) = .fin 60000 ∧
    calculateSubsidy (.num (.fin 3)) = .fin 78000 ∧
    calculateSubsidy (.num (.fin (5 / 2))) = .fin 69000 ∧
    calculateSubsidy (.str "2") = .fin 60000 ∧
    calculateSubsidy (.str "3") = .fin 78000 ∧
    calculateSubsidy (.str "2.5") = .fin 69000 := by
  have e2 : parseFloat (.num (.fin 2)) = .fin 2 := rfl
  have e3 : parseFloat (.num (.fin 3)) = .fin 3 := rfl
  have e25 : parseFloat (.num (.fin (5 / 2))) = .fin (5 / 2) := rfl
  refine ⟨?_, ?_, ?_, ?_, ?_, ?_⟩
  · rw [calculateSubsidy_of_fin e2]; norm_num
  · rw [calculateSubsidy_of_fin e3]; norm_num
  · rw [calculateSubsidy_of_fin e25]; norm_num
  · rw [calculateSubsidy_of_fin parseFloat_two]; norm_num
  · rw [calculateSubsidy_of_fin parseFloat_three]; norm_num
  · rw [calculateSubsidy_of_fin parseFloat_two_point_five]; norm_num

/-- Evaluates the parsers on a string literal. -/
theorem parseFloat_zero : parseFloat (.str "0") = .fin 0 := by
  simp [parseFloat, strDecimalLiteral, strUnsignedDecimalLiteral, matchLiteral, exponentPart,
    digitsToNat, pow10, isWhiteSpace, List.takeWhile, List.dropWhile, Char.isDigit]

/-- Evaluates the parsers on a string literal. -/
theorem parseFloat_minus_one : parseFloat (.str "-1") = .fin (-1) := by
  simp [parseFloat, strDecimalLiteral, strUnsignedDecimalLiteral, matchLiteral, exponentPart,
    digitsToNat, pow10, isWhiteSpace, List.takeWhile, List.dropWhile, Char.isDigit, JSNum.neg]

/-- C5, as stated, fails: for the capacity `0` (typed into the field, or given
as a number) and for the capacity `-1` the call completes with the amount `0`;
no error is raised (the function has no `throw`, it is total). -/
theorem calculateSubsidy_zero_returns :
    parseFloat (.str "0") = .fin 0 ∧
    calculateSubsidy (.str "0") = .fin 0 ∧
    calculateSubsidy (.num (.fin 0)) = .fin 0 ∧
    calculateSubsidy (.str "-1") = .fin 0 := by
  have e0 : parseFloat (.num (.fin 0)) = .fin 0 := rfl
  refine ⟨parseFloat_zero, ?_, ?_, ?_⟩
  · rw [calculateSubsidy_of_fin parseFloat_zero]; norm_num
  · rw [calculateSubsidy_of_fin e0]; norm_num
  · rw [calculateSubsidy_of_fin parseFloat_minus_one]; norm_num

/-- C5, amended: for every capacity that parses to a number `kw ≤ 0`
(`-Infinity` included) the calculator returns the amount `0`. -/
theorem calculateSubsidy_nonpositive (capacity : JSVal)
    (h0 : JSNum.le (parseFloat capacity) (.fin 0) = true) :
    calculateSubsidy capacity = .fin 0 := by
  simp [calculateSubsidy, h0]

/-- C5, amended, at the input string `-1`. -/
theorem calculateSubsidy_nonpositive_witness :
    JSNum.le (parseFloat (.str "-1")) (.fin 0) = true ∧
      calculateSubsidy (.str "-1") = .fin 0 :=
  have h : JSNum.le (parseFloat (.str "-1")) (.fin 0) = true := by
    rw [parseFloat_minus_one]; simp [JSNum.le]
  ⟨h, calculateSubsidy_nonpositive (.str "-1") h⟩

/-- C6: on capacities `0 ≤ a ≤ b` the subsidy of `a` is at most the subsidy of
`b`, and every capacity `kw ≥ 3` gets `78000`. -/
theorem calculateSubsidy_monotone :
    (∀ a b : JSVal, JSNum.le (.fin 0) (parseFloat a) = true →
        JSNum.le (parseFloat a) (parseFloat b) = true →
        JSNum.le (calculateSubsidy a) (calculateSubsidy b) = true) ∧
    (∀ c : JSVal, JSNum.le (.fin 3) (parseFloat c) = true →
        calculateSubsidy c = .fin 78000) := by
  constructor
  · intro a b h0 hab
    cases ha : parseFloat a with
    | nan => simp [ha, JSNum.le] at h0
    | negInf => simp [ha, JSNum.le] at h0
    | posInf =>
      cases hb : parseFloat b with
      | nan => simp [ha, hb, JSNum.le] at hab
      | negInf => simp [ha, hb, JSNum.le] at hab
      | fin y => simp [ha, hb, JSNum.le] at hab
      | posInf =>
        rw [calculateSubsidy_of_posInf ha, calculateSubsidy_of_posInf hb]
        simp [JSNum.le]
    | fin x =>
      have hx : 0 ≤ x := by simpa [ha, JSNum.le] using h0
      cases hb : parseFloat b with
      | nan => simp [ha, hb, JSNum.le] at hab
      | negInf => simp [ha, hb, JSNum.le] at hab
      | posInf =>
        obtain ⟨q, hq, _, hq2⟩ := calculateSubsidy_range a
        rw [calculateSubsidy_of_posInf hb, hq]
        simpa [JSNum.le] using hq2
      | fin y =>
        have hxy : x ≤ y := by simpa [ha, hb, JSNum.le] using hab
        rw [calculateSubsidy_of_fin ha, calculateSubsidy_of_fin hb]
        split_ifs <;> simp only [JSNum.le, decide_eq_true_eq] <;> linarith
  · intro c h3
    cases hc : parseFloat c with
    | nan => simp [hc, JSNum.le] at h3
    | negInf => simp [hc, JSNum.le] at h3
    | posInf => exact calculateSubsidy_of_posInf hc
    | fin kw =>
      have hk : 3 ≤ kw := by simpa [hc, JSNum.le] using h3
      rw [calculateSubsidy_of_fin hc, if_neg (by linarith), if_neg (by linarith)]
      split_ifs with h
      · have : kw = 3 := le_antisymm h hk
        subst this; norm_num
      · rfl

/-- C6 at the capacities `1.5 ≤ 2.5` and at the capacity `3`. -/
theorem calculateSubsidy_monotone_witness :
    (JSNum.le (.fin 0) (parseFloat (.str "1.5")) = true ∧
      JSNum.le (parseFloat (.str "1.5")) (parseFloat (.str "2.5")) = true ∧
      JSNum.le (calculateSubsidy (.str "1.5")) (calculateSubsidy (.str "2.5")) = true) ∧
    (JSNum.le (.fin 3) (parseFloat (.str "3")) = true ∧
      calculateSubsidy (.str "3") = .fin 78000) :=
  have h0 : JSNum.le (.fin 0) (parseFloat (.str "1.5")) = true := by
    rw [parseFloat_one_point_five]; simp [JSNum.le]; norm_num
  have hab : JSNum.le (parseFloat (.str "1.5")) (parseFloat (.str "2.5")) = true := by
    rw [parseFloat_one_point_five, parseFloat_two_point_five]; simp [JSNum.le]; norm_num
  have h3 : JSNum.le (.fin 3) (parseFloat (.str "3")) = true := by
    rw [parseFloat_three]; simp [JSNum.le]
  ⟨⟨h0, hab, calculateSubsidy_monotone.1 _ _ h0 hab⟩, h3, calculateSubsidy_monotone.2 _ h3⟩

/-- C7: for every input the subsidy is a finite amount `q` with
`0 ≤ q ≤ 78000`. -/
theorem calculateSubsidy_bounds (capacity : JSVal) :
    ∃ q : ℚ, calculateSubsidy capacity = .fin q ∧ 0 ≤ q ∧ q ≤ 78000 :=
  calculateSubsidy_range capacity

/-! ## The numbers under addition -/

namespace JSNum

theorem add_def (x y : JSNum) : x + y = add x y := rfl

theorem sub_def (x y : JSNum) : x - y = add x (neg y) := rfl

theorem add_assoc' (x y z : JSNum) : x + y + z = x + (y + z) := by
  simp only [add_def]
  cases x <;> cases y <;> cases z <;> simp [add, add_assoc]

theorem add_fin_zero (x : JSNum) : x + fin 0 = x := by
  simp only [add_def]
  cases x <;> simp [add]

theorem fin_zero_add (x : JSNum) : fin 0 + x = x := by
  simp only [add_def]
  cases x <;> simp [add]

theorem sub_fin_zero (x : JSNum) : x - fin 0 = x := by
  simp only [sub_def]
  cases x <;> simp [add, neg]

theorem orZero_fin (d : ℚ) : orZero (fin d) = fin d := by
  by_cases h : d = 0 <;> simp [orZero, truthy, h]

end JSNum

/-- A left fold that adds `f item` to the running sum is the sum of the list
of the `f item`, added to the initial value. -/
theorem foldl_add_eq_sum (f : Item → JSNum) (items : List Item) (acc : JSNum) :
    items.foldl (fun sum item => sum + f item) acc = acc + (items.map f).sum := by
  induction items generalizing acc with
  | nil => simp [JSNum.zero_def, JSNum.add_fin_zero]
  | cons item rest ih =>
    simp only [List.foldl_cons, List.map_cons, List.sum_cons]
    rw [ih, JSNum.add_assoc']

/-! ## Claims on the invoice totals -/

/-- The subtotal is the sum of the amounts. -/
theorem calculateTotals_subtotal (items : List Item) (formData : InvoiceFormData) :
    (calculateTotals items formData).subtotal = (items.map (fun item => item.amount)).sum := by
  simp only [calculateTotals]
  rw [foldl_add_eq_sum (fun item => item.amount), JSNum.fin_zero_add]

/-- The tax is the sum of the tax fractions of the lines. -/
theorem calculateTotals_tax (items : List Item) (formData : InvoiceFormData) :
    (calculateTotals items formData).tax =
      (items.map (fun item => item.amount * toNumber item.tax_rate / .fin 100)).sum := by
  simp only [calculateTotals]
  rw [foldl_add_eq_sum (fun item => item.amount * toNumber item.tax_rate / .fin 100),
    JSNum.fin_zero_add]

/-- The sum of finite numbers is the finite number of their sum. -/
theorem sum_map_fin (f : Item → JSNum) (g : Item → ℚ) (items : List Item)
    (h : ∀ item ∈ items, f item = .fin (g item)) :
    (items.map f).sum = .fin ((items.map g).sum) := by
  induction items with
  | nil => simp [JSNum.zero_def]
  | cons item rest ih =>
    have h1 : f item = .fin (g item) := h item (List.mem_cons_self _ _)
    have h2 : (rest.map f).sum = .fin ((rest.map g).sum) :=
      ih (fun x hx => h x (List.mem_cons_of_mem _ hx))
    simp only [List.map_cons, List.sum_cons, h1, h2, JSNum.fin_add_fin]

/-- C8: `calculateTotals` returns as subtotal the sum of the amounts, as tax
the sum of `amount * tax_rate / 100` over the items, and as total
`subtotal + tax - discount`, where the discount is the number the discount
field of the form holds (`0` when it holds none): a finite number `d` is
subtracted as it is. -/
theorem calculateTotals_sums (items : List Item) (formData : InvoiceFormData) :
    (calculateTotals items formData).subtotal = (items.map (fun item => item.amount)).sum ∧
    (calculateTotals items formData).tax =
      (items.map (fun item => item.amount * toNumber item.tax_rate / .fin 100)).sum ∧
    (calculateTotals items formData).total =
      (calculateTotals items formData).subtotal + (calculateTotals items formData).tax
        - (parseFloat formData.discount).orZero ∧
    ∀ d : ℚ, (calculateTotals items { formData with discount := .num (.fin d) }).total =
      (items.map (fun item => item.amount)).sum +
        (items.map (fun item => item.amount * toNumber item.tax_rate / .fin 100)).sum - .fin d := by
  refine ⟨calculateTotals_subtotal items formData, calculateTotals_tax items formData, rfl, ?_⟩
  intro d
  rw [← calculateTotals_subtotal items { formData with discount := .num (.fin d) },
    ← calculateTotals_tax items { formData with discount := .num (.fin d) }]
  simp only [calculateTotals]
  rw [parseFloat_num, JSNum.orZero_fin]

/-- Evaluates the parsers on a string literal. -/
theorem parseFloat_half : parseFloat (.str "0.5") = .fin (1 / 2) := by
  simp [parseFloat, strDecimalLiteral, strUnsignedDecimalLiteral, matchLiteral, exponentPart,
    digitsToNat, pow10, isWhiteSpace, List.takeWhile, List.dropWhile, Char.isDigit]
  norm_num

/-- Evaluates the parsers on a string literal. -/
theorem parseFloat_quarter : parseFloat (.str "0.25") = .fin (1 / 4) := by
  simp [parseFloat, strDecimalLiteral, strUnsignedDecimalLiteral, matchLiteral, exponentPart,
    digitsToNat, pow10, isWhiteSpace, List.takeWhile, List.dropWhile, Char.isDigit]
  norm_num

/-- Adding an item and typing the quantity `0.5` and the price `0.25` gives the
one line `eighthItem`. -/
theorem eighthSession_eq : eighthSession = some [eighthItem] := by
  simp [eighthSession, updateItem, addItem, setField, defaultItem, eighthItem, parseFloat_half,
    parseFloat_quarter, parseFloat_num, JSNum.orZero_fin, JSNum.fin_mul_fin, JSNum.fin_sub_fin]
  norm_num

/-- C9, as stated, fails: after adding an item and typing the quantity `0.5`
and the price `0.25` (discount `0`) the line amount is `0.125`, while
`round2(quantity * unitPrice) - discount` is `0.13`. -/
theorem updateItem_amount_not_rounded :
    eighthSession = some [eighthItem] ∧
    eighthItem.amount = .fin (1 / 8) ∧
    (parseFloat eighthItem.discount).orZero = .fin 0 ∧
    specRound2 ((parseFloat eighthItem.quantity).orZero * (parseFloat eighthItem.price).orZero)
      - (parseFloat eighthItem.discount).orZero = .fin (13 / 100) ∧
    eighthItem.amount ≠
      specRound2 ((parseFloat eighthItem.quantity).orZero * (parseFloat eighthItem.price).orZero)
        - (parseFloat eighthItem.discount).orZero := by
  have hr : specRound2 ((parseFloat eighthItem.quantity).orZero *
      (parseFloat eighthItem.price).orZero) - (parseFloat eighthItem.discount).orZero
      = .fin (13 / 100) := by
    simp only [eighthItem, defaultItem, parseFloat_half, parseFloat_quarter, parseFloat_num,
      JSNum.orZero_fin, JSNum.fin_mul_fin, specRound2, JSNum.sub_fin_zero]
    norm_num
  refine ⟨eighthSession_eq, rfl, ?_, hr, ?_⟩
  · simp [eighthItem, defaultItem, parseFloat_num, JSNum.orZero_fin]
  · rw [hr]
    simp [eighthItem]
    norm_num

/-- C9, amended: `updateItem` at an index of the list stores in that line the
amount `quantity * price - discount` of the numbers its fields parse to (`0`
for a field that parses to none), without rounding; when the discount is `0`
the amount is `quantity * price`. -/
theorem updateItem_amount (products : List Product) (items : List Item) (index : Nat)
    (field : Field) (value : JSVal) (h : index < items.length) :
    ∃ newItems item, updateItem products items index field value = some newItems ∧
      newItems[index]? = some item ∧
      item.amount = (parseFloat item.quantity).orZero * (parseFloat item.price).orZero
        - (parseFloat item.discount).orZero ∧
      ((parseFloat item.discount).orZero = .fin 0 →
        item.amount = (parseFloat item.quantity).orZero * (parseFloat item.price).orZero) := by
  simp only [updateItem, List.getElem?_eq_getElem h]
  refine ⟨_, _, rfl, List.getElem?_set_self h, rfl, ?_⟩
  intro hd
  simp only [hd, JSNum.sub_fin_zero]

/-- C9, amended, at a new line and the price `0.25`. -/
theorem updateItem_amount_witness :
    0 < (addItem []).length ∧
    ∃ newItems item, updateItem [] (addItem []) 0 .price (.str "0.25") = some newItems ∧
      newItems[0]? = some item ∧
      item.amount = (parseFloat item.quantity).orZero * (parseFloat item.price).orZero
        - (parseFloat item.discount).orZero ∧
      ((parseFloat item.discount).orZero = .fin 0 →
        item.amount = (parseFloat item.quantity).orZero * (parseFloat item.price).orZero) :=
  ⟨by simp [addItem], updateItem_amount [] (addItem []) 0 .price (.str "0.25")
    (by simp [addItem])⟩

/-- C10, as stated, fails: for the one line with quantity `0.5` and price
`0.25` (tax rate `18`) the subtotal returned is `0.125` and the tax returned
is `0.0225`, while the sums rounded to two decimals are `0.13` and `0.02`. -/
theorem calculateTotals_not_rounded :
    eighthSession = some [eighthItem] ∧
    (calculateTotals [eighthItem] plainFormData).subtotal = .fin (1 / 8) ∧
    specRound2 (([eighthItem].map (fun item => item.amount)).sum) = .fin (13 / 100) ∧
    (calculateTotals [eighthItem] plainFormData).tax = .fin (9 / 400) ∧
    specRound2 (([eighthItem].map
      (fun item => item.amount * toNumber item.tax_rate / .fin 100)).sum) = .fin (1 / 50) ∧
    (calculateTotals [eighthItem] plainFormData).subtotal ≠
      specRound2 (([eighthItem].map (fun item => item.amount)).sum) ∧
    (calculateTotals [eighthItem] plainFormData).tax ≠
      specRound2 (([eighthItem].map
        (fun item => item.amount * toNumber item.tax_rate / .fin 100)).sum) := by
  have hsum : ([eighthItem].map (fun item => item.amount)).sum = .fin (1 / 8) := by
    simp [eighthItem, JSNum.add_fin_zero, JSNum.zero_def]
  have htax : ([eighthItem].map
      (fun item => item.amount * toNumber item.tax_rate / .fin 100)).sum = .fin (9 / 400) := by
    simp only [List.map_cons, List.map_nil, List.sum_cons, List.sum_nil, JSNum.zero_def,
      JSNum.add_fin_zero, eighthItem, defaultItem, toNumber, JSNum.fin_mul_fin]
    rw [JSNum.fin_div_fin _ _ (by norm_num)]
    norm_num
  have hs : (calculateTotals [eighthItem] plainFormData).subtotal = .fin (1 / 8) := by
    rw [calculateTotals_subtotal, hsum]
  have ht : (calculateTotals [eighthItem] plainFormData).tax = .fin (9 / 400) := by
    rw [calculateTotals_tax, htax]
  have hrs : specRound2 (.fin (1 / 8)) = .fin (13 / 100) := by
    simp only [specRound2]
    norm_num
  have hrt : specRound2 (.fin (9 / 400)) = .fin (1 / 50) := by
    simp only [specRound2]
    norm_num
  refine ⟨eighthSession_eq, hs, ?_, ht, ?_, ?_, ?_⟩
  · rw [hsum, hrs]
  · rw [htax, hrt]
  · rw [hs, hsum, hrs]
    simp
    norm_num
  · rw [ht, htax, hrt]
    simp
    norm_num

/-- C10, amended: the subtotal returned is the sum of the amounts and the tax
returned is the sum of the per-line fractions `amount * tax_rate / 100`,
neither of them rounded, per line or at the end: when every amount and tax
rate is a finite number they are the exact sums of the rationals. -/
theorem calculateTotals_unrounded (items : List Item) (formData : InvoiceFormData) :
    (calculateTotals items formData).subtotal = (items.map (fun item => item.amount)).sum ∧
    (calculateTotals items formData).tax =
      (items.map (fun item => item.amount * toNumber item.tax_rate / .fin 100)).sum ∧
    ((∀ item ∈ items, item.amount = .fin item.amount.finVal ∧
        toNumber item.tax_rate = .fin (toNumber item.tax_rate).finVal) →
      (calculateTotals items formData).subtotal =
        .fin ((items.map (fun item => item.amount.finVal)).sum) ∧
      (calculateTotals items formData).tax =
        .fin ((items.map
          (fun item => item.amount.finVal * (toNumber item.tax_rate).finVal / 100)).sum)) := by
  refine ⟨calculateTotals_subtotal items formData, calculateTotals_tax items formData, ?_⟩
  intro h
  constructor
  · rw [calculateTotals_subtotal]
    exact sum_map_fin _ _ items (fun item hi => (h item hi).1)
  · rw [calculateTotals_tax]
    refine sum_map_fin _ _ items (fun item hi => ?_)
    obtain ⟨ha, hr⟩ := h item hi
    rw [ha, hr, JSNum.fin_mul_fin, JSNum.fin_div_fin _ _ (by norm_num)]
    simp [JSNum.finVal]

/-- C10, amended, at the one line with quantity `0.5` and price `0.25`: the
subtotal is `1 / 8` and the tax `1 / 8 * 18 / 100`. -/
theorem calculateTotals_unrounded_witness :
    (∀ item ∈ [eighthItem], item.amount = .fin item.amount.finVal ∧
        toNumber item.tax_rate = .fin (toNumber item.tax_rate).finVal) ∧
    (calculateTotals [eighthItem] plainFormData).subtotal =
      .fin (([eighthItem].map (fun item => item.amount.finVal)).sum) ∧
    (calculateTotals [eighthItem] plainFormData).tax =
      .fin (([eighthItem].map
        (fun item => item.amount.finVal * (toNumber item.tax_rate).finVal / 100)).sum) :=
  have h : ∀ item ∈ [eighthItem], item.amount = .fin item.amount.finVal ∧
      toNumber item.tax_rate = .fin (toNumber item.tax_rate).finVal := by
    intro item hi
    rw [List.mem_singleton] at hi
    subst hi
    exact ⟨rfl, rfl⟩
  ⟨h, (calculateTotals_unrounded [eighthItem] plainFormData).2.2 h⟩

/-! ## Evaluating the parsers on the strings of the sample sessions -/

/-- Evaluates the parsers on a string literal. -/
theorem parseFloat_ten : parseFloat (.str "10") = .fin 10 := by
  simp [parseFloat, strDecimalLiteral, strUnsignedDecimalLiteral, matchLiteral, exponentPart,
    digitsToNat, pow10, isWhiteSpace, List.takeWhile, List.dropWhile, Char.isDigit]

/-- Evaluates the parsers on a string literal. -/
theorem parseFloat_fifty : parseFloat (.str "50") = .fin 50 := by
  simp [parseFloat, strDecimalLiteral, strUnsignedDecimalLiteral, matchLiteral, exponentPart,
    digitsToNat, pow10, isWhiteSpace, List.takeWhile, List.dropWhile, Char.isDigit]

/-- Evaluates the parsers on a string literal. -/
theorem parseFloat_five_hundred : parseFloat (.str "500") = .fin 500 := by
  simp [parseFloat, strDecimalLiteral, strUnsignedDecimalLiteral, matchLiteral, exponentPart,
    digitsToNat, pow10, isWhiteSpace, List.takeWhile, List.dropWhile, Char.isDigit]

/-- Evaluates the parsers on a string literal. -/
theorem parseFloat_three_hundred : parseFloat (.str "300") = .fin 300 := by
  simp [parseFloat, strDecimalLiteral, strUnsignedDecimalLiteral, matchLiteral, exponentPart,
    digitsToNat, pow10, isWhiteSpace, List.takeWhile, List.dropWhile, Char.isDigit]

/-- Evaluates the parsers on a string literal. -/
theorem parseFloat_minus_two : parseFloat (.str "-2") = .fin (-2) := by
  simp [parseFloat, strDecimalLiteral, strUnsignedDecimalLiteral, matchLiteral, exponentPart,
    digitsToNat, pow10, isWhiteSpace, List.takeWhile, List.dropWhile, Char.isDigit, JSNum.neg]

/-- Evaluates the parsers on a string that is no number. -/
theorem parseFloat_abc : parseFloat (.str "abc") = .nan := by
  simp [parseFloat, strDecimalLiteral, strUnsignedDecimalLiteral, matchLiteral, exponentPart,
    digitsToNat, pow10, isWhiteSpace, List.takeWhile, List.dropWhile, Char.isDigit]

/-- Evaluates the parsers on a string literal. -/
theorem parseFloat_twenty_five : parseFloat (.str "25") = .fin 25 := by
  simp [parseFloat, strDecimalLiteral, strUnsignedDecimalLiteral, matchLiteral, exponentPart,
    digitsToNat, pow10, isWhiteSpace, List.takeWhile, List.dropWhile, Char.isDigit]

/-- Evaluates the parsers on a string literal. -/
theorem parseFloat_two_thousand : parseFloat (.str "2000") = .fin 2000 := by
  simp [parseFloat, strDecimalLiteral, strUnsignedDecimalLiteral, matchLiteral, exponentPart,
    digitsToNat, pow10, isWhiteSpace, List.takeWhile, List.dropWhile, Char.isDigit]

/-- Evaluates the conversion to a number on a string literal. -/
theorem toNumber_twelve : toNumber (.str "12") = .fin 12 := by
  simp [toNumber, strNumericLiteral, wholeDecimalLiteral, radixOf, strDecimalLiteral,
    strUnsignedDecimalLiteral, matchLiteral, exponentPart, digitsToNat, pow10, isWhiteSpace,
    List.takeWhile, List.dropWhile, Char.isDigit]

/-- A number converts to itself. -/
theorem toNumber_num (x : JSNum) : toNumber (.num x) = x := rfl

/-- A field that parses to no number counts as `0`. -/
theorem JSNum.orZero_nan : JSNum.orZero .nan = .fin 0 := rfl

/-! ## The sample sessions -/

/-- The session ends with the one line `overDiscountItem`. -/
theorem overDiscountSession_eq : overDiscountSession = some [overDiscountItem] := by
  simp [overDiscountSession, updateItem, addItem, setField, defaultItem, overDiscountItem,
    parseFloat_ten, parseFloat_fifty, parseFloat_num, JSNum.orZero_fin, JSNum.fin_mul_fin,
    JSNum.fin_sub_fin]
  norm_num

/-- The session ends with the one line `negativeItem`. -/
theorem negativeSession_eq : negativeSession = some [negativeItem] := by
  simp [negativeSession, updateItem, addItem, setField, defaultItem, negativeItem,
    parseFloat_five_hundred, parseFloat_minus_two, parseFloat_num, JSNum.orZero_fin,
    JSNum.fin_mul_fin, JSNum.fin_sub_fin]
  norm_num

/-- The session ends with the one line `coercedItem`. -/
theorem coercedSession_eq : coercedSession = some [coercedItem] := by
  simp [coercedSession, updateItem, addItem, setField, defaultItem, coercedItem,
    parseFloat_five_hundred, parseFloat_abc, parseFloat_num, JSNum.orZero_fin,
    JSNum.orZero_nan, JSNum.fin_mul_fin, JSNum.fin_sub_fin]

/-- The session ends with the one line `firstItem`. -/
theorem oneItemSession_eq : oneItemSession = some [firstItem] := by
  simp [oneItemSession, updateItem, addItem, setField, defaultItem, firstItem,
    parseFloat_five_hundred, parseFloat_two, parseFloat_num, JSNum.orZero_fin,
    JSNum.fin_mul_fin, JSNum.fin_sub_fin]
  norm_num

/-- The session ends with the lines `firstItem` and `secondItem`. -/
theorem twoItemSession_eq : twoItemSession = some [firstItem, secondItem] := by
  simp [twoItemSession, oneItemSession_eq, updateItem, addItem, setField, defaultItem,
    secondItem, parseFloat_three_hundred, parseFloat_fifty, parseFloat_num, JSNum.orZero_fin,
    JSNum.fin_mul_fin, JSNum.fin_sub_fin]
  norm_num

/-! ## Claims on the validation of an invoice -/

/-- At an index of the list `updateItem` always succeeds: it replaces that line
by one whose amount is `quantity * price - discount` of the parsed fields. -/
theorem updateItem_some (products : List Product) (items : List Item) (index : Nat)
    (field : Field) (value : JSVal) (h : index < items.length) :
    ∃ item, updateItem products items index field value = some (items.set index item) ∧
      item.amount = (parseFloat item.quantity).orZero * (parseFloat item.price).orZero
        - (parseFloat item.discount).orZero := by
  simp only [updateItem, List.getElem?_eq_getElem h]
  exact ⟨_, rfl, rfl⟩

/-- The totals of one line with a finite amount `a` and a finite tax rate `r`,
on a form whose discount parses to the finite number `d`. -/
theorem calculateTotals_single (item : Item) (formData : InvoiceFormData) (a r d : ℚ)
    (ha : item.amount = .fin a) (hr : toNumber item.tax_rate = .fin r)
    (hd : parseFloat formData.discount = .fin d) :
    calculateTotals [item] formData =
      { subtotal := .fin a, tax := .fin (a * r / 100), total := .fin (a + a * r / 100 - d) } := by
  simp only [calculateTotals, List.foldl_cons, List.foldl_nil, ha, hr, hd, JSNum.orZero_fin,
    JSNum.fin_mul_fin, JSNum.fin_div_fin _ _ (by norm_num : (100 : ℚ) ≠ 0), JSNum.fin_add_fin,
    JSNum.fin_sub_fin, zero_add]

/-- C11, as stated, fails: after adding an item and setting its price to `10`
and its discount to `50` (quantity `1`), `updateItem` has stored the line
with the amount `-40`, and `calculateTotals` returns the totals `-40`, `-7.2`
and `-47.2` for it. -/
theorem updateItem_discount_not_rejected :
    overDiscountSession = some [overDiscountItem] ∧
    parseFloat overDiscountItem.quantity = .fin 1 ∧
    parseFloat overDiscountItem.price = .fin 10 ∧
    parseFloat overDiscountItem.discount = .fin 50 ∧
    overDiscountItem.amount = .fin (-40) ∧
    calculateTotals [overDiscountItem] plainFormData =
      { subtotal := .fin (-40), tax := .fin (-36 / 5), total := .fin (-236 / 5) } := by
  refine ⟨overDiscountSession_eq, rfl, parseFloat_ten, parseFloat_fifty, rfl, ?_⟩
  rw [calculateTotals_single overDiscountItem plainFormData (-40) 18 0 rfl rfl rfl]
  norm_num

/-- C11, amended: a line whose discount exceeds `quantity * price` is not
rejected. At an index of the list `updateItem` stores the line; when its
fields parse to `q`, `p` and `d` with `q * p < d`, its amount is the negative
number `q * p - d`, and `calculateTotals` adds it into the subtotal. -/
theorem updateItem_discount_exceeds (products : List Product) (items : List Item)
    (index : Nat) (field : Field) (value : JSVal) (formData : InvoiceFormData)
    (h : index < items.length) :
    ∃ item, updateItem products items index field value = some (items.set index item) ∧
      (∀ q p d : ℚ, parseFloat item.quantity = .fin q → parseFloat item.price = .fin p →
        parseFloat item.discount = .fin d → q * p < d →
        item.amount = .fin (q * p - d) ∧ q * p - d < 0) ∧
      (calculateTotals (items.set index item) formData).subtotal =
        ((items.set index item).map (fun line => line.amount)).sum := by
  obtain ⟨item, hu, ha⟩ := updateItem_some products items index field value h
  refine ⟨item, hu, ?_, calculateTotals_subtotal _ _⟩
  intro q p d hq hp hd hlt
  rw [ha, hq, hp, hd, JSNum.orZero_fin, JSNum.orZero_fin, JSNum.orZero_fin, JSNum.fin_mul_fin,
    JSNum.fin_sub_fin]
  exact ⟨rfl, by linarith⟩

/-- Setting the discount `50` on the line with price `10`. -/
theorem updateItem_discount_over :
    updateItem [] [{ defaultItem with price := .str "10", amount := .fin 10 }] 0
        .discount (.str "50") = some [overDiscountItem] := by
  simp [updateItem, setField, defaultItem, overDiscountItem, parseFloat_ten, parseFloat_fifty,
    parseFloat_num, JSNum.orZero_fin, JSNum.fin_mul_fin, JSNum.fin_sub_fin]
  norm_num

/-- C11, amended, at the line with price `10` (quantity `1`) whose discount is
set to `50`: the line is stored with the amount `1 * 10 - 50`. -/
theorem updateItem_discount_exceeds_witness :
    0 < [{ defaultItem with price := .str "10", amount := .fin 10 }].length ∧
    ∃ item, updateItem [] [{ defaultItem with price := .str "10", amount := .fin 10 }] 0
        .discount (.str "50") =
        some ([{ defaultItem with price := .str "10", amount := .fin 10 }].set 0 item) ∧
      parseFloat item.quantity = .fin 1 ∧ parseFloat item.price = .fin 10 ∧
      parseFloat item.discount = .fin 50 ∧ (1 : ℚ) * 10 < 50 ∧
      item.amount = .fin (1 * 10 - 50) ∧ (1 : ℚ) * 10 - 50 < 0 ∧
      (calculateTotals ([{ defaultItem with price := .str "10", amount := .fin 10 }].set 0 item)
          plainFormData).subtotal =
        (([{ defaultItem with price := .str "10", amount := .fin 10 }].set 0 item).map
          (fun line => line.amount)).sum := by
  refine ⟨by simp, ?_⟩
  obtain ⟨item, hu, h1, h2⟩ := updateItem_discount_exceeds []
    [{ defaultItem with price := .str "10", amount := .fin 10 }] 0 .discount (.str "50")
    plainFormData (by simp)
  have he : item = overDiscountItem := by
    rw [updateItem_discount_over] at hu
    simpa using hu.symm
  have hq : parseFloat item.quantity = .fin 1 := by rw [he]; rfl
  have hp : parseFloat item.price = .fin 10 := by rw [he]; exact parseFloat_ten
  have hd : parseFloat item.discount = .fin 50 := by rw [he]; exact parseFloat_fifty
  have hlt : (1 : ℚ) * 10 < 50 := by norm_num
  exact ⟨item, hu, hq, hp, hd, hlt, (h1 1 10 50 hq hp hd hlt).1, (h1 1 10 50 hq hp hd hlt).2, h2⟩

/-- C12, as stated, fails: the quantity `-2` (at price `500`) is used as it
is, which gives the amount `-1000` and the totals `-1000`, `-180`, `-1180`;
the quantity `abc` is coerced to `0`, which gives the amount `0`. Neither line
is rejected. -/
theorem updateItem_malformed_not_rejected :
    negativeSession = some [negativeItem] ∧
    parseFloat negativeItem.quantity = .fin (-2) ∧
    negativeItem.amount = .fin (-1000) ∧
    calculateTotals [negativeItem] plainFormData =
      { subtotal := .fin (-1000), tax := .fin (-180), total := .fin (-1180) } ∧
    coercedSession = some [coercedItem] ∧
    parseFloat coercedItem.quantity = .nan ∧
    coercedItem.amount = .fin 0 ∧
    calculateTotals [coercedItem] plainFormData =
      { subtotal := .fin 0, tax := .fin 0, total := .fin 0 } := by
  refine ⟨negativeSession_eq, parseFloat_minus_two, rfl, ?_, coercedSession_eq, parseFloat_abc,
    rfl, ?_⟩
  · rw [calculateTotals_single negativeItem plainFormData (-1000) 18 0 rfl rfl rfl]
    norm_num
  · rw [calculateTotals_single coercedItem plainFormData 0 18 0 rfl rfl rfl]
    norm_num

/-- C12, amended: a malformed line is not rejected. At an index of the list
`updateItem` stores the line; a quantity, price or discount that does not
parse to a number counts as `0` in the amount, and numbers of either sign
are used as they are: fields that parse to `q`, `p`, `d` give the amount
`q * p - d`. `calculateTotals` uses the line, with its tax rate converted to
a number whatever its sign. -/
theorem updateItem_coerces (products : List Product) (items : List Item) (index : Nat)
    (field : Field) (value : JSVal) (formData : InvoiceFormData) (h : index < items.length) :
    ∃ item, updateItem products items index field value = some (items.set index item) ∧
      (parseFloat item.quantity = .nan →
        item.amount = .fin 0 * (parseFloat item.price).orZero
          - (parseFloat item.discount).orZero) ∧
      (parseFloat item.price = .nan →
        item.amount = (parseFloat item.quantity).orZero * .fin 0
          - (parseFloat item.discount).orZero) ∧
      (parseFloat item.discount = .nan →
        item.amount = (parseFloat item.quantity).orZero * (parseFloat item.price).orZero
          - .fin 0) ∧
      (∀ q p d : ℚ, parseFloat item.quantity = .fin q → parseFloat item.price = .fin p →
        parseFloat item.discount = .fin d → item.amount = .fin (q * p - d)) ∧
      (calculateTotals (items.set index item) formData).subtotal =
        ((items.set index item).map (fun line => line.amount)).sum ∧
      (calculateTotals (items.set index item) formData).tax =
        ((items.set index item).map
          (fun line => line.amount * toNumber line.tax_rate / .fin 100)).sum := by
  obtain ⟨item, hu, ha⟩ := updateItem_some products items index field value h
  refine ⟨item, hu, ?_, ?_, ?_, ?_, calculateTotals_subtotal _ _, calculateTotals_tax _ _⟩
  · intro hq
    rw [ha, hq, JSNum.orZero_nan]
  · intro hp
    rw [ha, hp, JSNum.orZero_nan]
  · intro hd
    rw [ha, hd, JSNum.orZero_nan]
  · intro q p d hq hp hd
    rw [ha, hq, hp, hd, JSNum.orZero_fin, JSNum.orZero_fin, JSNum.orZero_fin, JSNum.fin_mul_fin,
      JSNum.fin_sub_fin]

/-- Setting the quantity `abc` on a new line. -/
theorem updateItem_quantity_abc :
    updateItem [] (addItem []) 0 .quantity (.str "abc") =
      some [{ defaultItem with quantity := .str "abc" }] := by
  simp [updateItem, addItem, setField, defaultItem, parseFloat_abc, parseFloat_num,
    JSNum.orZero_fin, JSNum.orZero_nan, JSNum.fin_mul_fin, JSNum.fin_sub_fin]

/-- C12, amended, at a new line whose quantity is set to `abc`: the line is
stored, its quantity parses to no number and counts as `0` in the amount. -/
theorem updateItem_coerces_witness :
    0 < (addItem []).length ∧
    ∃ item, updateItem [] (addItem []) 0 .quantity (.str "abc") =
        some ((addItem []).set 0 item) ∧
      parseFloat item.quantity = .nan ∧
      item.amount = .fin 0 * (parseFloat item.price).orZero
        - (parseFloat item.discount).orZero ∧
      (calculateTotals ((addItem []).set 0 item) plainFormData).subtotal =
        (((addItem []).set 0 item).map (fun line => line.amount)).sum ∧
      (calculateTotals ((addItem []).set 0 item) plainFormData).tax =
        (((addItem []).set 0 item).map
          (fun line => line.amount * toNumber line.tax_rate / .fin 100)).sum := by
  refine ⟨by simp [addItem], ?_⟩
  obtain ⟨item, hu, h1, _, _, _, h5, h6⟩ :=
    updateItem_coerces [] (addItem []) 0 .quantity (.str "abc") plainFormData
      (by simp [addItem])
  have he : item = { defaultItem with quantity := .str "abc" } := by
    rw [updateItem_quantity_abc] at hu
    simpa [addItem] using hu.symm
  have hq : parseFloat item.quantity = .nan := by rw [he]; exact parseFloat_abc
  exact ⟨item, hu, hq, h1 hq, h5, h6⟩

/-- With a customer chosen and at least one line, `handleSubmit` sends the
request: it looks at no total. -/
theorem handleSubmit_posts (formData : InvoiceFormData) (items : List Item)
    (hc : formData.customer_id.truthy = true) (hi : items ≠ []) :
    handleSubmit formData items = .postInvoice formData items := by
  have hl : items.length ≠ 0 := fun h => hi (List.length_eq_zero.mp h)
  simp [handleSubmit, hc, hl]

/-- C13, as stated, fails: for the one line of quantity `2` at price `500`
(subtotal `1000`, tax `180`) and the invoice discount `2000`, `calculateTotals`
returns the total `-820`, and `handleSubmit` sends the invoice. -/
theorem calculateTotals_negative_total :
    oneItemSession = some [firstItem] ∧
    parseFloat (formWithDiscount "2000").discount = .fin 2000 ∧
    calculateTotals [firstItem] (formWithDiscount "2000") =
      { subtotal := .fin 1000, tax := .fin 180, total := .fin (-820) } ∧
    handleSubmit (formWithDiscount "2000") [firstItem] =
      .postInvoice (formWithDiscount "2000") [firstItem] := by
  refine ⟨oneItemSession_eq, parseFloat_two_thousand, ?_, ?_⟩
  · rw [calculateTotals_single firstItem (formWithDiscount "2000") 1000 18 2000 rfl rfl
      parseFloat_two_thousand]
    norm_num
  · exact handleSubmit_posts _ _ (by simp [formWithDiscount, JSVal.truthy]) (by simp)

/-- C13, amended: an invoice discount above `subtotal + tax` is not rejected.
When `subtotal + tax` is the number `st` and the discount parses to `d` with
`st < d`, `calculateTotals` returns the negative total `st - d`; and
`handleSubmit` sends the invoice as soon as a customer is chosen and there is
a line. -/
theorem calculateTotals_discount_exceeds (items : List Item) (formData : InvoiceFormData)
    (st d : ℚ)
    (hs : (calculateTotals items formData).subtotal + (calculateTotals items formData).tax
      = .fin st)
    (hd : parseFloat formData.discount = .fin d) (h : st < d) :
    (calculateTotals items formData).total = .fin (st - d) ∧ st - d < 0 ∧
    (formData.customer_id.truthy = true → items ≠ [] →
      handleSubmit formData items = .postInvoice formData items) := by
  refine ⟨?_, by linarith, handleSubmit_posts formData items⟩
  have ht : (calculateTotals items formData).total =
      (calculateTotals items formData).subtotal + (calculateTotals items formData).tax
        - (parseFloat formData.discount).orZero := rfl
  rw [ht, hs, hd, JSNum.orZero_fin, JSNum.fin_sub_fin]

/-- C13, amended, at the line of quantity `2` at price `500` and the discount
`2000`. -/
theorem calculateTotals_discount_exceeds_witness :
    ((calculateTotals [firstItem] (formWithDiscount "2000")).subtotal
      + (calculateTotals [firstItem] (formWithDiscount "2000")).tax = .fin 1180 ∧
    parseFloat (formWithDiscount "2000").discount = .fin 2000 ∧ (1180 : ℚ) < 2000) ∧
    (calculateTotals [firstItem] (formWithDiscount "2000")).total = .fin (1180 - 2000) ∧
    (1180 : ℚ) - 2000 < 0 ∧
    ((formWithDiscount "2000").customer_id.truthy = true → [firstItem] ≠ [] →
      handleSubmit (formWithDiscount "2000") [firstItem] =
        .postInvoice (formWithDiscount "2000") [firstItem]) :=
  have hs : (calculateTotals [firstItem] (formWithDiscount "2000")).subtotal
      + (calculateTotals [firstItem] (formWithDiscount "2000")).tax = .fin 1180 := by
    rw [calculateTotals_single firstItem (formWithDiscount "2000") 1000 18 2000 rfl rfl
      parseFloat_two_thousand, JSNum.fin_add_fin]
    norm_num
  ⟨⟨hs, parseFloat_two_thousand, by norm_num⟩,
    calculateTotals_discount_exceeds [firstItem] (formWithDiscount "2000") 1180 2000 hs
      parseFloat_two_thousand (by norm_num)⟩

/-- The discount `calculateTotals` subtracts is never `NaN`. -/
theorem JSNum.orZero_ne_nan (x : JSNum) : x.orZero ≠ .nan := by
  cases x with
  | nan => simp [JSNum.orZero, JSNum.truthy]
  | fin a => rw [JSNum.orZero_fin]; simp
  | posInf => simp [JSNum.orZero, JSNum.truthy]
  | negInf => simp [JSNum.orZero, JSNum.truthy]

/-- The sign of a difference `s - d`, for `d` other than `NaN`: it is negative
only if `s < d`; and if `d ≤ s` and one of the two is finite, it is at least
`0`. -/
theorem JSNum.sub_sign (s d : JSNum) :
    ((s - d).lt (.fin 0) = true → s.lt d = true) ∧
    (d.le s = true → (s.isFinite = true ∨ d.isFinite = true) →
      JSNum.le (.fin 0) (s - d) = true) := by
  simp only [JSNum.sub_def]
  cases s <;> cases d <;>
    simp [JSNum.add, JSNum.neg, JSNum.lt, JSNum.le, JSNum.isFinite]

/-- C14: the total `calculateTotals` returns is negative only if the discount
exceeds `subtotal + tax`; and whenever the discount, a number `d`, is at most
`subtotal + tax`, the total is at least `0`. -/
theorem calculateTotals_total_sign (items : List Item) (formData : InvoiceFormData) :
    ((calculateTotals items formData).total.lt (.fin 0) = true →
      ((calculateTotals items formData).subtotal + (calculateTotals items formData).tax).lt
        (parseFloat formData.discount).orZero = true) ∧
    (∀ d : ℚ, (parseFloat formData.discount).orZero = .fin d →
      JSNum.le (.fin d)
        ((calculateTotals items formData).subtotal + (calculateTotals items formData).tax)
        = true →
      JSNum.le (.fin 0) (calculateTotals items formData).total = true) := by
  refine ⟨(JSNum.sub_sign _ _).1, ?_⟩
  intro d hd hle
  have h := (JSNum.sub_sign
    ((calculateTotals items formData).subtotal + (calculateTotals items formData).tax)
    (parseFloat formData.discount).orZero).2
  rw [hd] at h
  have ht : (calculateTotals items formData).total =
      (calculateTotals items formData).subtotal + (calculateTotals items formData).tax
        - (parseFloat formData.discount).orZero := rfl
  rw [ht, hd]
  exact h hle (Or.inr rfl)

/-- The totals of the line of quantity `2` at price `500` with the discount
`25`. -/
theorem calculateTotals_first_twenty_five :
    calculateTotals [firstItem] (formWithDiscount "25") =
      { subtotal := .fin 1000, tax := .fin 180, total := .fin 1155 } := by
  rw [calculateTotals_single firstItem (formWithDiscount "25") 1000 18 25 rfl rfl
    parseFloat_twenty_five]
  norm_num

/-- The totals of the line of quantity `2` at price `500` with the discount
`2000`. -/
theorem calculateTotals_first_two_thousand :
    calculateTotals [firstItem] (formWithDiscount "2000") =
      { subtotal := .fin 1000, tax := .fin 180, total := .fin (-820) } := by
  rw [calculateTotals_single firstItem (formWithDiscount "2000") 1000 18 2000 rfl rfl
    parseFloat_two_thousand]
  norm_num

/-- C14 at the line of quantity `2` at price `500`: with the discount `2000`
the total `-820` is negative and `1180 < 2000`; with the discount `25` the
total `1155` is at least `0`. -/
theorem calculateTotals_total_sign_witness :
    ((calculateTotals [firstItem] (formWithDiscount "2000")).total.lt (.fin 0) = true ∧
      ((calculateTotals [firstItem] (formWithDiscount "2000")).subtotal
        + (calculateTotals [firstItem] (formWithDiscount "2000")).tax).lt
        (parseFloat (formWithDiscount "2000").discount).orZero = true) ∧
    ((parseFloat (formWithDiscount "25").discount).orZero = .fin 25 ∧
      JSNum.le (.fin 25)
        ((calculateTotals [firstItem] (formWithDiscount "25")).subtotal
          + (calculateTotals [firstItem] (formWithDiscount "25")).tax) = true ∧
      JSNum.le (.fin 0) (calculateTotals [firstItem] (formWithDiscount "25")).total = true) :=
  have h1 : (calculateTotals [firstItem] (formWithDiscount "2000")).total.lt (.fin 0) = true := by
    rw [calculateTotals_first_two_thousand]
    simp [JSNum.lt]
  have hd : (parseFloat (formWithDiscount "25").discount).orZero = .fin 25 := by
    simp only [formWithDiscount, parseFloat_twenty_five, JSNum.orZero_fin]
  have h2 : JSNum.le (.fin 25)
      ((calculateTotals [firstItem] (formWithDiscount "25")).subtotal
        + (calculateTotals [firstItem] (formWithDiscount "25")).tax) = true := by
    rw [calculateTotals_first_twenty_five]
    simp only [JSNum.fin_add_fin, JSNum.le]
    norm_num
  ⟨⟨h1, (calculateTotals_total_sign [firstItem] (formWithDiscount "2000")).1 h1⟩,
    hd, h2, (calculateTotals_total_sign [firstItem] (formWithDiscount "25")).2 25 hd h2⟩

/-- C16: for every line `updateItem` stores whose quantity and price are
non-negative and whose discount is a number `d` with
`0 ≤ d ≤ quantity * price`, the amount is `quantity * price - d` and is at
least `0`; when quantity and price are the numbers `q` and `p`, it is the
number `q * p - d`. -/
theorem updateItem_amount_nonneg (products : List Product) (items : List Item) (index : Nat)
    (field : Field) (value : JSVal) (h : index < items.length) :
    ∃ item, updateItem products items index field value = some (items.set index item) ∧
      (∀ d : ℚ, (parseFloat item.discount).orZero = .fin d →
        JSNum.le (.fin 0) (parseFloat item.quantity).orZero = true →
        JSNum.le (.fin 0) (parseFloat item.price).orZero = true →
        0 ≤ d →
        JSNum.le (.fin d) ((parseFloat item.quantity).orZero * (parseFloat item.price).orZero)
          = true →
        item.amount = (parseFloat item.quantity).orZero * (parseFloat item.price).orZero
          - .fin d ∧
        JSNum.le (.fin 0) item.amount = true) ∧
      (∀ q p d : ℚ, parseFloat item.quantity = .fin q → parseFloat item.price = .fin p →
        parseFloat item.discount = .fin d → 0 ≤ q → 0 ≤ p → 0 ≤ d → d ≤ q * p →
        item.amount = .fin (q * p - d) ∧ 0 ≤ q * p - d) := by
  obtain ⟨item, hu, ha⟩ := updateItem_some products items index field value h
  refine ⟨item, hu, ?_, ?_⟩
  · intro d hd _ _ _ hle
    rw [ha, hd]
    exact ⟨rfl, (JSNum.sub_sign _ (.fin d)).2 hle (Or.inr rfl)⟩
  · intro q p d hq hp hd _ _ _ hle
    rw [ha, hq, hp, hd, JSNum.orZero_fin, JSNum.orZero_fin, JSNum.orZero_fin, JSNum.fin_mul_fin,
      JSNum.fin_sub_fin]
    exact ⟨rfl, by linarith⟩

/-- Setting the discount `50` on the line with price `300`. -/
theorem updateItem_discount_fifty :
    updateItem [] [{ defaultItem with price := .str "300", amount := .fin 300 }] 0
        .discount (.str "50") =
      some [{ defaultItem with
        price := .str "300", discount := .str "50", amount := .fin 250 }] := by
  simp [updateItem, setField, defaultItem, parseFloat_three_hundred, parseFloat_fifty,
    parseFloat_num, JSNum.orZero_fin, JSNum.fin_mul_fin, JSNum.fin_sub_fin]
  norm_num

/-- C16 at the line with price `300` (quantity `1`) whose discount is set to
`50`: the amount is `1 * 300 - 50`, which is at least `0`. -/
theorem updateItem_amount_nonneg_witness :
    0 < [{ defaultItem with price := .str "300", amount := .fin 300 }].length ∧
    ∃ item, updateItem [] [{ defaultItem with price := .str "300", amount := .fin 300 }] 0
        .discount (.str "50") =
        some ([{ defaultItem with price := .str "300", amount := .fin 300 }].set 0 item) ∧
      parseFloat item.quantity = .fin 1 ∧ parseFloat item.price = .fin 300 ∧
      parseFloat item.discount = .fin 50 ∧
      item.amount = .fin (1 * 300 - 50) ∧ (0 : ℚ) ≤ 1 * 300 - 50 := by
  refine ⟨by simp, ?_⟩
  obtain ⟨item, hu, _, h2⟩ := updateItem_amount_nonneg []
    [{ defaultItem with price := .str "300", amount := .fin 300 }] 0 .discount (.str "50")
    (by simp)
  have he : item = { defaultItem with
      price := .str "300", discount := .str "50", amount := .fin 250 } := by
    rw [updateItem_discount_fifty] at hu
    simpa using hu.symm
  have hq : parseFloat item.quantity = .fin 1 := by rw [he]; rfl
  have hp : parseFloat item.price = .fin 300 := by rw [he]; exact parseFloat_three_hundred
  have hd : parseFloat item.discount = .fin 50 := by rw [he]; exact parseFloat_fifty
  exact ⟨item, hu, hq, hp, hd,
    h2 1 300 50 hq hp hd (by norm_num) (by norm_num) (by norm_num) (by norm_num)⟩

/-! ## The examples of the specification -/

/-- The totals of two lines with finite amounts and tax rates, on a form whose
discount parses to the finite number `d`. -/
theorem calculateTotals_pair (item1 item2 : Item) (formData : InvoiceFormData)
    (a1 r1 a2 r2 d : ℚ)
    (ha1 : item1.amount = .fin a1) (hr1 : toNumber item1.tax_rate = .fin r1)
    (ha2 : item2.amount = .fin a2) (hr2 : toNumber item2.tax_rate = .fin r2)
    (hd : parseFloat formData.discount = .fin d) :
    calculateTotals [item1, item2] formData =
      { subtotal := .fin (a1 + a2), tax := .fin (a1 * r1 / 100 + a2 * r2 / 100),
        total := .fin (a1 + a2 + (a1 * r1 / 100 + a2 * r2 / 100) - d) } := by
  simp only [calculateTotals, List.foldl_cons, List.foldl_nil, ha1, hr1, ha2, hr2, hd,
    JSNum.orZero_fin, JSNum.fin_mul_fin, JSNum.fin_div_fin _ _ (by norm_num : (100 : ℚ) ≠ 0),
    JSNum.fin_add_fin, JSNum.fin_sub_fin, zero_add]

/-- C17: the two-item example. Typing quantity `2` and price `500` into a
first line and price `300`, discount `50` and tax rate `12` into a second one
gives the amounts `1000` and `250`; with the invoice discount `25`
`calculateTotals` gives the subtotal `1250`, the tax `210` and the total
`1435`. -/
theorem calculateTotals_two_items :
    twoItemSession = some [firstItem, secondItem] ∧
    (parseFloat firstItem.quantity = .fin 2 ∧ parseFloat firstItem.price = .fin 500 ∧
      parseFloat firstItem.discount = .fin 0 ∧ toNumber firstItem.tax_rate = .fin 18) ∧
    (parseFloat secondItem.quantity = .fin 1 ∧ parseFloat secondItem.price = .fin 300 ∧
      parseFloat secondItem.discount = .fin 50 ∧ toNumber secondItem.tax_rate = .fin 12) ∧
    parseFloat (formWithDiscount "25").discount = .fin 25 ∧
    firstItem.amount = .fin 1000 ∧ secondItem.amount = .fin 250 ∧
    calculateTotals [firstItem, secondItem] (formWithDiscount "25") =
      { subtotal := .fin 1250, tax := .fin 210, total := .fin 1435 } := by
  refine ⟨twoItemSession_eq, ⟨parseFloat_two, parseFloat_five_hundred, rfl, rfl⟩,
    ⟨rfl, parseFloat_three_hundred, parseFloat_fifty, toNumber_twelve⟩,
    parseFloat_twenty_five, rfl, rfl, ?_⟩
  rw [calculateTotals_pair firstItem secondItem (formWithDiscount "25") 1000 18 250 12 25 rfl rfl
    rfl toNumber_twelve parseFloat_twenty_five]
  norm_num

/-- C18: the single-item example. Typing quantity `2` and price `500` into a
new line (discount `0`, tax rate `18`) gives, with the invoice discount `0`,
the subtotal `1000`, the tax `180` and the total `1180`. -/
theorem calculateTotals_one_item :
    oneItemSession = some [firstItem] ∧
    (parseFloat firstItem.quantity = .fin 2 ∧ parseFloat firstItem.price = .fin 500 ∧
      parseFloat firstItem.discount = .fin 0 ∧ toNumber firstItem.tax_rate = .fin 18) ∧
    parseFloat plainFormData.discount = .fin 0 ∧
    parseFloat (formWithDiscount "0").discount = .fin 0 ∧
    calculateTotals [firstItem] plainFormData =
      { subtotal := .fin 1000, tax := .fin 180, total := .fin 1180 } ∧
    calculateTotals [firstItem] (formWithDiscount "0") =
      { subtotal := .fin 1000, tax := .fin 180, total := .fin 1180 } := by
  refine ⟨oneItemSession_eq, ⟨parseFloat_two, parseFloat_five_hundred, rfl, rfl⟩, rfl,
    parseFloat_zero, ?_, ?_⟩
  · rw [calculateTotals_single firstItem plainFormData 1000 18 0 rfl rfl rfl]
    norm_num
  · rw [calculateTotals_single firstItem (formWithDiscount "0") 1000 18 0 rfl rfl
      parseFloat_zero]
    norm_num

/-- Zero minus a number is its negation. -/
theorem JSNum.fin_zero_sub (x : JSNum) : JSNum.fin 0 - x = x.neg := by
  simp only [JSNum.sub_def]
  cases x <;> simp [JSNum.add, JSNum.neg]

/-- C19: for the empty list `calculateTotals` returns the subtotal `0`, the
tax `0` and as total the negated discount: `-d` when the discount field holds
the number `d`. -/
theorem calculateTotals_empty (formData : InvoiceFormData) :
    (calculateTotals [] formData).subtotal = .fin 0 ∧
    (calculateTotals [] formData).tax = .fin 0 ∧
    (calculateTotals [] formData).total = (parseFloat formData.discount).orZero.neg ∧
    ∀ d : ℚ, calculateTotals [] { formData with discount := .num (.fin d) } =
      { subtotal := .fin 0, tax := .fin 0, total := .fin (-d) } := by
  refine ⟨rfl, rfl, ?_, ?_⟩
  · show JSNum.fin 0 + JSNum.fin 0 - (parseFloat formData.discount).orZero = _
    rw [JSNum.fin_add_fin, add_zero, JSNum.fin_zero_sub]
  · intro d
    simp only [calculateTotals, List.foldl_nil, parseFloat_num, JSNum.orZero_fin,
      JSNum.fin_add_fin, JSNum.fin_sub_fin, add_zero, zero_sub]

/-! ## Rounding to binary64 -/

/-- The exponent of a positive rational between two powers of two. -/
theorem log_two_eq (q : ℚ) (e : ℤ) (hq : 0 < q) (h1 : (2 : ℚ) ^ e ≤ q)
    (h2 : q < (2 : ℚ) ^ (e + 1)) : Int.log 2 q = e := by
  apply le_antisymm
  · have h := (Int.lt_zpow_iff_log_lt (by norm_num : 1 < 2) hq).mp
      (show q < ((2 : ℕ) : ℚ) ^ (e + 1) by simpa using h2)
    omega
  · exact (Int.zpow_le_iff_le_log (by norm_num : 1 < 2) hq).mp
      (show ((2 : ℕ) : ℚ) ^ e ≤ q by simpa using h1)

/-- Rounds a positive rational `q` of exponent `e`: `k` is the integer part
of its significand and `n` the significand after rounding. -/
theorem JSNum.round64_eq (q : ℚ) (e k n : ℤ) (hq : 0 < q) (h1 : (2 : ℚ) ^ e ≤ q)
    (h2 : q < (2 : ℚ) ^ (e + 1)) (he : -1022 ≤ e)
    (hk1 : (k : ℚ) ≤ q / 2 ^ (e - 52)) (hk2 : q / 2 ^ (e - 52) < k + 1)
    (hn : (if q / 2 ^ (e - 52) - k < 1 / 2 then k
      else if 1 / 2 < q / 2 ^ (e - 52) - k then k + 1
      else if k % 2 = 0 then k else k + 1) = n)
    (hlt : |(n : ℚ) * 2 ^ (e - 52)| < 2 ^ (1024 : ℕ)) :
    JSNum.round64 (.fin q) = .fin (n * 2 ^ (e - 52)) := by
  have hlog : Int.log 2 |q| = e := by
    rw [abs_of_pos hq]
    exact log_two_eq q e hq h1 h2
  have hfloor : ⌊q / 2 ^ (e - 52)⌋ = k := Int.floor_eq_iff.mpr ⟨hk1, hk2⟩
  have hr : roundBinary64 q = n * 2 ^ (e - 52) := by
    simp only [roundBinary64, if_neg hq.ne', hlog, max_eq_left he, roundHalfEven, hfloor]
    rw [hn]
  simp only [JSNum.round64, hr, if_neg (not_le.mpr hlt)]

/-- The binary64 number nearest to `0.1`. -/
theorem round64_tenth :
    JSNum.round64 (.fin (1 / 10)) = .fin (3602879701896397 / 2 ^ 55) := by
  rw [JSNum.round64_eq (1 / 10) (-4) 7205759403792793 7205759403792794 (by norm_num)
    (by norm_num) (by norm_num) (by norm_num) (by norm_num) (by norm_num) (by norm_num)
    (by norm_num [abs_of_pos])]
  norm_num

/-- The binary64 number nearest to `0.2`. -/
theorem round64_fifth :
    JSNum.round64 (.fin (1 / 5)) = .fin (3602879701896397 / 2 ^ 54) := by
  rw [JSNum.round64_eq (1 / 5) (-3) 7205759403792793 7205759403792794 (by norm_num)
    (by norm_num) (by norm_num) (by norm_num) (by norm_num) (by norm_num) (by norm_num)
    (by norm_num [abs_of_pos])]
  norm_num

/-- The binary64 number nearest to `0.3`. -/
theorem round64_three_tenths :
    JSNum.round64 (.fin (3 / 10)) = .fin (5404319552844595 / 2 ^ 54) := by
  rw [JSNum.round64_eq (3 / 10) (-2) 5404319552844595 5404319552844595 (by norm_num)
    (by norm_num) (by norm_num) (by norm_num) (by norm_num) (by norm_num) (by norm_num)
    (by norm_num [abs_of_pos])]
  norm_num

/-- The binary64 number nearest to `0.1` is a binary64 number. -/
theorem round64_tenth_fixed :
    JSNum.round64 (.fin (3602879701896397 / 2 ^ 55)) = .fin (3602879701896397 / 2 ^ 55) := by
  rw [JSNum.round64_eq (3602879701896397 / 2 ^ 55) (-4) 7205759403792794 7205759403792794 (by norm_num)
    (by norm_num) (by norm_num) (by norm_num) (by norm_num) (by norm_num) (by norm_num)
    (by norm_num [abs_of_pos])]
  norm_num

/-- The binary64 number nearest to `0.2` is a binary64 number. -/
theorem round64_fifth_fixed :
    JSNum.round64 (.fin (3602879701896397 / 2 ^ 54)) = .fin (3602879701896397 / 2 ^ 54) := by
  rw [JSNum.round64_eq (3602879701896397 / 2 ^ 54) (-3) 7205759403792794 7205759403792794 (by norm_num)
    (by norm_num) (by norm_num) (by norm_num) (by norm_num) (by norm_num) (by norm_num)
    (by norm_num [abs_of_pos])]
  norm_num

/-- The binary64 number nearest to `0.3` is a binary64 number. -/
theorem round64_three_tenths_fixed :
    JSNum.round64 (.fin (5404319552844595 / 2 ^ 54)) = .fin (5404319552844595 / 2 ^ 54) := by
  rw [JSNum.round64_eq (5404319552844595 / 2 ^ 54) (-2) 5404319552844595 5404319552844595 (by norm_num)
    (by norm_num) (by norm_num) (by norm_num) (by norm_num) (by norm_num) (by norm_num)
    (by norm_num [abs_of_pos])]
  norm_num

/-- The binary64 sum `0.1 + 0.2`: a tie, rounded to the even significand. -/
theorem round64_tenth_add_fifth :
    JSNum.round64 (.fin (3602879701896397 / 2 ^ 55 + 3602879701896397 / 2 ^ 54)) = .fin (5404319552844596 / 2 ^ 54) := by
  rw [JSNum.round64_eq (3602879701896397 / 2 ^ 55 + 3602879701896397 / 2 ^ 54) (-2) 5404319552844595 5404319552844596 (by norm_num)
    (by norm_num) (by norm_num) (by norm_num) (by norm_num) (by norm_num) (by norm_num)
    (by norm_num [abs_of_pos])]
  norm_num

/-- The binary64 sum `(0.1 + 0.2) + 0.3`: a tie again, rounded up. -/
theorem round64_add_three_tenths :
    JSNum.round64 (.fin (5404319552844596 / 2 ^ 54 + 5404319552844595 / 2 ^ 54)) = .fin (5404319552844596 / 2 ^ 53) := by
  rw [JSNum.round64_eq (5404319552844596 / 2 ^ 54 + 5404319552844595 / 2 ^ 54) (-1) 5404319552844595 5404319552844596 (by norm_num)
    (by norm_num) (by norm_num) (by norm_num) (by norm_num) (by norm_num) (by norm_num)
    (by norm_num [abs_of_pos])]
  norm_num

/-- The binary64 sum `0.3 + 0.2` is exactly one half. -/
theorem round64_three_tenths_add_fifth :
    JSNum.round64 (.fin (5404319552844595 / 2 ^ 54 + 3602879701896397 / 2 ^ 54)) = .fin (1 / 2) := by
  rw [JSNum.round64_eq (5404319552844595 / 2 ^ 54 + 3602879701896397 / 2 ^ 54) (-1) 4503599627370496 4503599627370496 (by norm_num)
    (by norm_num) (by norm_num) (by norm_num) (by norm_num) (by norm_num) (by norm_num)
    (by norm_num [abs_of_pos])]
  norm_num

/-- The binary64 sum `(0.3 + 0.2) + 0.1`: rounded down. -/
theorem round64_half_add_tenth :
    JSNum.round64 (.fin (1 / 2 + 3602879701896397 / 2 ^ 55)) = .fin (5404319552844595 / 2 ^ 53) := by
  rw [JSNum.round64_eq (1 / 2 + 3602879701896397 / 2 ^ 55) (-1) 5404319552844595 5404319552844595 (by norm_num)
    (by norm_num) (by norm_num) (by norm_num) (by norm_num) (by norm_num) (by norm_num)
    (by norm_num [abs_of_pos])]
  norm_num

/-! ## Reordering the lines -/

/-- Addition of numbers is commutative. -/
theorem JSNum.add_comm' (x y : JSNum) : x + y = y + x := by
  simp only [JSNum.add_def]
  cases x <;> cases y <;> simp [JSNum.add, add_comm]

/-- The exact sum of a list of numbers does not depend on their order. -/
theorem JSNum.sum_perm {l1 l2 : List JSNum} (h : l1.Perm l2) : l1.sum = l2.sum := by
  induction h with
  | nil => rfl
  | cons x _ ih => simp only [List.sum_cons, ih]
  | swap x y l =>
    simp only [List.sum_cons]
    rw [← JSNum.add_assoc', ← JSNum.add_assoc', JSNum.add_comm' y x]
  | trans _ _ ih1 ih2 => exact ih1.trans ih2

/-- C15, as stated, fails on the machine: the lines with quantity `1` and the
prices `0.1`, `0.2`, `0.3` have the binary64 amounts of `tenthItem`,
`fifthItem`, `threeTenthsItem`; summed in this order with binary64 additions
the subtotal is `0.6000000000000001`, summed in the reverse order it is
`0.6`. -/
theorem subtotal64_depends_on_order :
    (JSNum.round64 (.fin (1 / 10)) = tenthItem.amount ∧
      JSNum.round64 (.fin (1 / 5)) = fifthItem.amount ∧
      JSNum.round64 (.fin (3 / 10)) = threeTenthsItem.amount) ∧
    (JSNum.round64 (JSNum.round64 (.fin 1 * tenthItem.amount) - .fin 0) = tenthItem.amount ∧
      JSNum.round64 (JSNum.round64 (.fin 1 * fifthItem.amount) - .fin 0) = fifthItem.amount ∧
      JSNum.round64 (JSNum.round64 (.fin 1 * threeTenthsItem.amount) - .fin 0)
        = threeTenthsItem.amount) ∧
    [threeTenthsItem, fifthItem, tenthItem].Perm [tenthItem, fifthItem, threeTenthsItem] ∧
    subtotal64 [tenthItem, fifthItem, threeTenthsItem] = .fin (5404319552844596 / 2 ^ 53) ∧
    subtotal64 [threeTenthsItem, fifthItem, tenthItem] = .fin (5404319552844595 / 2 ^ 53) ∧
    subtotal64 [tenthItem, fifthItem, threeTenthsItem]
      ≠ subtotal64 [threeTenthsItem, fifthItem, tenthItem] := by
  have h1 : subtotal64 [tenthItem, fifthItem, threeTenthsItem]
      = .fin (5404319552844596 / 2 ^ 53) := by
    simp only [subtotal64, List.foldl_cons, List.foldl_nil, tenthItem, fifthItem,
      threeTenthsItem, JSNum.fin_add_fin, zero_add, round64_tenth_fixed,
      round64_tenth_add_fifth, round64_add_three_tenths]
  have h2 : subtotal64 [threeTenthsItem, fifthItem, tenthItem]
      = .fin (5404319552844595 / 2 ^ 53) := by
    simp only [subtotal64, List.foldl_cons, List.foldl_nil, tenthItem, fifthItem,
      threeTenthsItem, JSNum.fin_add_fin, zero_add, round64_three_tenths_fixed,
      round64_three_tenths_add_fifth, round64_half_add_tenth]
  refine ⟨⟨round64_tenth, round64_fifth, round64_three_tenths⟩, ⟨?_, ?_, ?_⟩, ?_, h1, h2, ?_⟩
  · simp only [tenthItem, JSNum.fin_mul_fin, one_mul, round64_tenth_fixed, JSNum.fin_sub_fin,
      sub_zero]
  · simp only [fifthItem, JSNum.fin_mul_fin, one_mul, round64_fifth_fixed, JSNum.fin_sub_fin,
      sub_zero]
  · simp only [threeTenthsItem, JSNum.fin_mul_fin, one_mul, round64_three_tenths_fixed,
      JSNum.fin_sub_fin, sub_zero]
  · exact List.reverse_perm [tenthItem, fifthItem, threeTenthsItem]
  · rw [h1, h2]
    simp
    norm_num

/-- C15, amended: with exact additions, `calculateTotals` returns the same
subtotal, tax and total for a list of line items and for every permutation of
it. -/
theorem calculateTotals_perm (items permuted : List Item) (formData : InvoiceFormData)
    (h : items.Perm permuted) :
    calculateTotals items formData = calculateTotals permuted formData := by
  have hs : (calculateTotals items formData).subtotal
      = (calculateTotals permuted formData).subtotal := by
    rw [calculateTotals_subtotal, calculateTotals_subtotal]
    exact JSNum.sum_perm (h.map _)
  have ht : (calculateTotals items formData).tax = (calculateTotals permuted formData).tax := by
    rw [calculateTotals_tax, calculateTotals_tax]
    exact JSNum.sum_perm (h.map _)
  have htot : ∀ l : List Item, (calculateTotals l formData).total =
      (calculateTotals l formData).subtotal + (calculateTotals l formData).tax
        - (parseFloat formData.discount).orZero := fun _ => rfl
  have hto : (calculateTotals items formData).total
      = (calculateTotals permuted formData).total := by
    rw [htot items, htot permuted, hs, ht]
  calc calculateTotals items formData
      = { subtotal := (calculateTotals items formData).subtotal,
          tax := (calculateTotals items formData).tax,
          total := (calculateTotals items formData).total } := rfl
    _ = { subtotal := (calculateTotals permuted formData).subtotal,
          tax := (calculateTotals permuted formData).tax,
          total := (calculateTotals permuted formData).total } := by rw [hs, ht, hto]
    _ = calculateTotals permuted formData := rfl

/-- C15, amended, at the two lines of the two-item example and their swap. -/
theorem calculateTotals_perm_witness :
    [firstItem, secondItem].Perm [secondItem, firstItem] ∧
    calculateTotals [firstItem, secondItem] (formWithDiscount "25") =
      calculateTotals [secondItem, firstItem] (formWithDiscount "25") :=
  ⟨List.Perm.swap secondItem firstItem [],
    calculateTotals_perm [firstItem, secondItem] [secondItem, firstItem] (formWithDiscount "25")
      (List.Perm.swap secondItem firstItem [])⟩

/-! ## The subsidy field of the solar project form -/

/-- One user operation keeps the stored subsidy equal to the subsidy computed
from the stored capacity. -/
theorem solarStep_subsidy (formData : SolarFormData) (event : SolarEvent)
    (h : formData.subsidy_amount = .num (calculateSubsidy formData.system_capacity_kw)) :
    (solarStep formData event).subsidy_amount =
      .num (calculateSubsidy (solarStep formData event).system_capacity_kw) := by
  cases event with
  | capacity value => rfl
  | input field value => cases field <;> exact h

/-- A sequence of user operations keeps the stored subsidy equal to the
subsidy computed from the stored capacity. -/
theorem solarRun_subsidy (events : List SolarEvent) (formData : SolarFormData)
    (h : formData.subsidy_amount = .num (calculateSubsidy formData.system_capacity_kw)) :
    (solarRun formData events).subsidy_amount =
      .num (calculateSubsidy (solarRun formData events).system_capacity_kw) := by
  induction events generalizing formData with
  | nil => exact h
  | cons event rest ih => exact ih (solarStep formData event) (solarStep_subsidy formData event h)

/-- The state after the operations `before`, a capacity entry and the
operations `after`: the stored subsidy is the computed one. -/
theorem solarRun_after_capacity (formData : SolarFormData) (before after : List SolarEvent)
    (value : JSVal) :
    (solarRun formData (before ++ [.capacity value] ++ after)).subsidy_amount =
      .num (calculateSubsidy
        (solarRun formData (before ++ [.capacity value] ++ after)).system_capacity_kw) := by
  have hsplit : solarRun formData (before ++ [.capacity value] ++ after)
      = solarRun (handleCapacityChange (solarRun formData before) value) after := by
    simp [solarRun, List.foldl_append, solarStep]
  rw [hsplit]
  exact solarRun_subsidy after _ rfl

/-- In every session with a capacity entry the stored subsidy is the computed
one. -/
theorem solarSession_subsidy (today : String) (before after : List SolarEvent)
    (value : JSVal) :
    (solarSession today before value after).subsidy_amount =
      .num (calculateSubsidy (solarSession today before value after).system_capacity_kw) :=
  solarRun_after_capacity (initialSolarFormData today) before after value

/-- C20, as stated, fails: there is no sequence of user operations on the
solar project form, once a capacity has been entered, after which the stored
`subsidy_amount` differs from `calculateSubsidy(system_capacity_kw)`. -/
theorem subsidy_not_editable :
    ¬ ∃ (today : String) (before after : List SolarEvent) (value : JSVal),
      (solarSession today before value after).subsidy_amount ≠
        .num (calculateSubsidy (solarSession today before value after).system_capacity_kw) := by
  rintro ⟨today, before, after, value, h⟩
  exact h (solarSession_subsidy today before after value)

/-- As long as no capacity is entered, the capacity and the subsidy fields keep
the empty string of the initial state. -/
theorem solarRun_inputs (today : String) (inputs : List (SolarInput × JSVal)) :
    (solarRun (initialSolarFormData today)
        (inputs.map (fun p => SolarEvent.input p.1 p.2))).system_capacity_kw = .str "" ∧
    (solarRun (initialSolarFormData today)
        (inputs.map (fun p => SolarEvent.input p.1 p.2))).subsidy_amount = .str "" := by
  have key : ∀ (inputs : List (SolarInput × JSVal)) (formData : SolarFormData),
      formData.system_capacity_kw = .str "" → formData.subsidy_amount = .str "" →
      (solarRun formData (inputs.map (fun p => SolarEvent.input p.1 p.2))).system_capacity_kw
        = .str "" ∧
      (solarRun formData (inputs.map (fun p => SolarEvent.input p.1 p.2))).subsidy_amount
        = .str "" := by
    intro inputs
    induction inputs with
    | nil => intro formData h1 h2; exact ⟨h1, h2⟩
    | cons p rest ih =>
      intro formData h1 h2
      have hc : (setSolarInput formData p.1 p.2).system_capacity_kw = .str "" := by
        cases hp : p.1 <;> exact h1
      have hs : (setSolarInput formData p.1 p.2).subsidy_amount = .str "" := by
        cases hp : p.1 <;> exact h2
      exact ih (setSolarInput formData p.1 p.2) hc hs
  exact key inputs (initialSolarFormData today) rfl rfl

/-- C20, amended: the computed subsidy is not editable. No input handler but
`handleCapacityChange` writes `subsidy_amount`: it stays empty until a
capacity is entered; from then on, after every sequence of user operations,
the stored `subsidy_amount` is `calculateSubsidy(system_capacity_kw)`, and
that is the subsidy `handleSubmit` sends. -/
theorem subsidy_follows_capacity (today : String) (before after : List SolarEvent)
    (value : JSVal) :
    (∀ (formData : SolarFormData) (field : SolarInput) (text : JSVal),
      (setSolarInput formData field text).subsidy_amount = formData.subsidy_amount) ∧
    (∀ inputs : List (SolarInput × JSVal),
      (solarRun (initialSolarFormData today)
        (inputs.map (fun p => SolarEvent.input p.1 p.2))).subsidy_amount = .str "") ∧
    (solarSession today before value after).subsidy_amount =
      .num (calculateSubsidy (solarSession today before value after).system_capacity_kw) ∧
    solarHandleSubmit (solarSession today before value after) =
      (if !(solarSession today before value after).customer_id.truthy then
        .toastError "Please select a customer"
      else
        .postProject (solarSession today before value after)
          (parseFloat (solarSession today before value after).system_capacity_kw)
          (parseFloat (solarSession today before value after).estimated_cost)
          (calculateSubsidy (solarSession today before value after).system_capacity_kw)) := by
  refine ⟨?_, fun inputs => (solarRun_inputs today inputs).2,
    solarSession_subsidy today before after value, ?_⟩
  · intro formData field text
    cases field <;> rfl
  · simp only [solarHandleSubmit, solarSession_subsidy today before after value, parseFloat_num]

/-! ## The growth of the subsidy -/

/-- C21, amended: in exact arithmetic, for capacities that parse to the
numbers `a ≤ b` (of either sign), the subsidies are numbers `fa` and `fb`
with `0 ≤ fb - fa ≤ 30000 * (b - a)`. -/
theorem calculateSubsidy_lipschitz (ca cb : JSVal) (a b : ℚ)
    (ha : parseFloat ca = .fin a) (hb : parseFloat cb = .fin b) (hab : a ≤ b) :
    ∃ fa fb : ℚ, calculateSubsidy ca = .fin fa ∧ calculateSubsidy cb = .fin fb ∧
      calculateSubsidy cb - calculateSubsidy ca = .fin (fb - fa) ∧
      0 ≤ fb - fa ∧ fb - fa ≤ 30000 * (b - a) := by
  rw [calculateSubsidy_of_fin ha, calculateSubsidy_of_fin hb]
  split_ifs <;>
    exact ⟨_, _, rfl, rfl, JSNum.fin_sub_fin _ _, by linarith, by linarith⟩

/-- C21, amended, at the capacities `1.5` and `2.5`: the subsidies `45000` and
`69000` differ by `24000`, which is at most `30000 * (2.5 - 1.5)`. -/
theorem calculateSubsidy_lipschitz_witness :
    (parseFloat (.str "1.5") = .fin (3 / 2) ∧ parseFloat (.str "2.5") = .fin (5 / 2) ∧
      (3 / 2 : ℚ) ≤ 5 / 2) ∧
    ∃ fa fb : ℚ, calculateSubsidy (.str "1.5") = .fin fa ∧
      calculateSubsidy (.str "2.5") = .fin fb ∧
      calculateSubsidy (.str "2.5") - calculateSubsidy (.str "1.5") = .fin (fb - fa) ∧
      0 ≤ fb - fa ∧ fb - fa ≤ 30000 * (5 / 2 - 3 / 2) :=
  ⟨⟨parseFloat_one_point_five, parseFloat_two_point_five, by norm_num⟩,
    calculateSubsidy_lipschitz (.str "1.5") (.str "2.5") (3 / 2) (5 / 2)
      parseFloat_one_point_five parseFloat_two_point_five (by norm_num)⟩

/-- Evaluates the parsers on a string literal. -/
theorem parseFloat_tenth : parseFloat (.str "0.1") = .fin (1 / 10) := by
  simp [parseFloat, strDecimalLiteral, strUnsignedDecimalLiteral, matchLiteral, exponentPart,
    digitsToNat, pow10, isWhiteSpace, List.takeWhile, List.dropWhile, Char.isDigit]

/-- Evaluates the parsers on a string literal. -/
theorem parseFloat_three_tenths : parseFloat (.str "0.3") = .fin (3 / 10) := by
  simp [parseFloat, strDecimalLiteral, strUnsignedDecimalLiteral, matchLiteral, exponentPart,
    digitsToNat, pow10, isWhiteSpace, List.takeWhile, List.dropWhile, Char.isDigit]

/-- The binary64 product of the binary64 `0.1` and `30000` is `3000`. -/
theorem round64_tenth_rate :
    JSNum.round64 (.fin (3602879701896397 / 2 ^ 55 * 30000)) = .fin 3000 := by
  rw [JSNum.round64_eq (3602879701896397 / 2 ^ 55 * 30000) 11 6597069766656000
    6597069766656000 (by norm_num) (by norm_num) (by norm_num) (by norm_num) (by norm_num)
    (by norm_num) (by norm_num) (by norm_num [abs_of_pos])]
  norm_num

/-- The binary64 product of the binary64 `0.3` and `30000` is `9000`. -/
theorem round64_three_tenths_rate :
    JSNum.round64 (.fin (5404319552844595 / 2 ^ 54 * 30000)) = .fin 9000 := by
  rw [JSNum.round64_eq (5404319552844595 / 2 ^ 54 * 30000) 13 4947802324991999
    4947802324992000 (by norm_num) (by norm_num) (by norm_num) (by norm_num) (by norm_num)
    (by norm_num) (by norm_num) (by norm_num [abs_of_pos])]
  norm_num

/-- C21, as stated, fails on the machine: the capacities `0.1` and `0.3` are
read as the binary64 numbers `a ≤ b` nearest to them, the subsidies computed
are `3000` and `9000`, and `9000 - 3000` exceeds `30000 * (b - a)`. -/
theorem calculateSubsidy64_exceeds_rate :
    (parseFloat (.str "0.1")).round64 = .fin (3602879701896397 / 2 ^ 55) ∧
    (parseFloat (.str "0.3")).round64 = .fin (5404319552844595 / 2 ^ 54) ∧
    (3602879701896397 / 2 ^ 55 : ℚ) ≤ 5404319552844595 / 2 ^ 54 ∧
    calculateSubsidy64 (.str "0.1") = .fin 3000 ∧
    calculateSubsidy64 (.str "0.3") = .fin 9000 ∧
    ¬ ((9000 : ℚ) - 3000
      ≤ 30000 * (5404319552844595 / 2 ^ 54 - 3602879701896397 / 2 ^ 55)) := by
  have ha : (parseFloat (.str "0.1")).round64 = .fin (3602879701896397 / 2 ^ 55) := by
    rw [parseFloat_tenth, round64_tenth]
  have hb : (parseFloat (.str "0.3")).round64 = .fin (5404319552844595 / 2 ^ 54) := by
    rw [parseFloat_three_tenths, round64_three_tenths]
  have ha0 : JSNum.le (.fin (3602879701896397 / 2 ^ 55)) (.fin 0) = false := by
    simp only [JSNum.le, decide_eq_false_iff_not]
    norm_num
  have ha2 : JSNum.le (.fin (3602879701896397 / 2 ^ 55)) (.fin 2) = true := by
    simp only [JSNum.le, decide_eq_true_eq]
    norm_num
  have hb0 : JSNum.le (.fin (5404319552844595 / 2 ^ 54)) (.fin 0) = false := by
    simp only [JSNum.le, decide_eq_false_iff_not]
    norm_num
  have hb2 : JSNum.le (.fin (5404319552844595 / 2 ^ 54)) (.fin 2) = true := by
    simp only [JSNum.le, decide_eq_true_eq]
    norm_num
  refine ⟨ha, hb, by norm_num, ?_, ?_, by norm_num⟩
  · simp only [calculateSubsidy64, ha, JSNum.isNaN, ha0, ha2, Bool.false_or,
      JSNum.fin_mul_fin, round64_tenth_rate]
    rfl
  · simp only [calculateSubsidy64, hb, JSNum.isNaN, hb0, hb2, Bool.false_or,
      JSNum.fin_mul_fin, round64_three_tenths_rate]
    rfl

/-- C22: `calculateSubsidy` returns `0` exactly when its input parses to no
number or to a number `≤ 0`; for an input that parses to a positive number
(`Infinity` included) the result is a positive amount. -/
theorem calculateSubsidy_zero_iff (capacity : JSVal) :
    (calculateSubsidy capacity = .fin 0 ↔
      ((parseFloat capacity).isNaN = true ∨ (parseFloat capacity).le (.fin 0) = true)) ∧
    (JSNum.lt (.fin 0) (parseFloat capacity) = true →
      ∃ q : ℚ, calculateSubsidy capacity = .fin q ∧ 0 < q) := by
  cases h : parseFloat capacity with
  | nan =>
    rw [calculateSubsidy_of_nan h]
    simp [JSNum.isNaN, JSNum.lt]
  | posInf =>
    rw [calculateSubsidy_of_posInf h]
    simp [JSNum.isNaN, JSNum.le, JSNum.lt]
  | negInf =>
    rw [calculateSubsidy_of_negInf h]
    simp [JSNum.isNaN, JSNum.le, JSNum.lt]
  | fin kw =>
    rw [calculateSubsidy_of_fin h]
    simp only [JSNum.isNaN, JSNum.le, JSNum.lt, decide_eq_true_eq, false_or, Bool.false_eq_true]
    constructor
    · constructor
      · intro h0
        by_contra hk
        rw [if_neg hk] at h0
        have hpos : 0 < kw := not_le.mp hk
        split_ifs at h0 with h2 h3
        · have := JSNum.fin.inj h0
          linarith
        · have := JSNum.fin.inj h0
          linarith
        · have := JSNum.fin.inj h0
          linarith
      · intro h0
        rw [if_pos h0]
    · intro hpos
      rw [if_neg (not_le.mpr hpos)]
      split_ifs with h2 h3
      · exact ⟨_, rfl, by linarith⟩
      · exact ⟨_, rfl, by linarith⟩
      · exact ⟨_, rfl, by norm_num⟩

/-- C22 at the capacity `1.5`: it parses to a positive number and the subsidy
is positive. -/
theorem calculateSubsidy_zero_iff_witness :
    JSNum.lt (.fin 0) (parseFloat (.str "1.5")) = true ∧
    ∃ q : ℚ, calculateSubsidy (.str "1.5") = .fin q ∧ 0 < q :=
  have h : JSNum.lt (.fin 0) (parseFloat (.str "1.5")) = true := by
    rw [parseFloat_one_point_five]
    simp only [JSNum.lt, decide_eq_true_eq]
    norm_num
  ⟨h, (calculateSubsidy_zero_iff (.str "1.5")).2 h⟩

/-- C23: `handleCapacityChange(value)` stores `value` as `system_capacity_kw`
and `calculateSubsidy(value)` as `subsidy_amount`, and every other field of the
state keeps its value. -/
theorem handleCapacityChange_frame (formData : SolarFormData) (value : JSVal) :
    (handleCapacityChange formData value).system_capacity_kw = value ∧
    (handleCapacityChange formData value).subsidy_amount = .num (calculateSubsidy value) ∧
    (handleCapacityChange formData value).customer_id = formData.customer_id ∧
    (handleCapacityChange formData value).project_name = formData.project_name ∧
    (handleCapacityChange formData value).site_address = formData.site_address ∧
    (handleCapacityChange formData value).panel_type = formData.panel_type ∧
    (handleCapacityChange formData value).panel_quantity = formData.panel_quantity ∧
    (handleCapacityChange formData value).inverter_type = formData.inverter_type ∧
    (handleCapacityChange formData value).inverter_quantity = formData.inverter_quantity ∧
    (handleCapacityChange formData value).estimated_cost = formData.estimated_cost ∧
    (handleCapacityChange formData value).discom_name = formData.discom_name ∧
    (handleCapacityChange formData value).consumer_number = formData.consumer_number ∧
    (handleCapacityChange formData value).start_date = formData.start_date ∧
    (handleCapacityChange formData value).notes = formData.notes :=
  ⟨rfl, rfl, rfl, rfl, rfl, rfl, rfl, rfl, rfl, rfl, rfl, rfl, rfl, rfl⟩

/-! ## The operations on the item list -/

/-- A filter on an index below the first one of the enumeration keeps every
element. -/
theorem filter_enumFrom_of_lt (items : List Item) (first index : Nat) (h : index < first) :
    ((items.enumFrom first).filter (fun p => p.1 != index)).map (fun p => p.2) = items := by
  induction items generalizing first with
  | nil => rfl
  | cons item rest ih =>
    have hne : (first != index) = true := by
      simp only [bne_iff_ne, ne_eq]
      omega
    simp only [List.enumFrom_cons, List.filter_cons, hne, if_true, List.map_cons]
    rw [ih (first + 1) (by omega)]

/-- Filtering one index out of an enumeration erases that position. -/
theorem filter_enumFrom_eq_eraseIdx (items : List Item) (first index : Nat) :
    ((items.enumFrom first).filter (fun p => p.1 != first + index)).map (fun p => p.2)
      = items.eraseIdx index := by
  induction items generalizing first index with
  | nil => rfl
  | cons item rest ih =>
    cases index with
    | zero =>
      have heq : (first != first + 0) = false := by simp
      simp only [List.enumFrom_cons, List.filter_cons, heq, List.eraseIdx_cons_zero]
      exact filter_enumFrom_of_lt rest (first + 1) (first + 0) (by omega)
    | succ j =>
      have hne : (first != first + (j + 1)) = true := by
        simp only [bne_iff_ne, ne_eq]
        omega
      have hidx : first + (j + 1) = first + 1 + j := by omega
      simp only [List.enumFrom_cons, List.filter_cons, hne, if_true, List.map_cons,
        List.eraseIdx_cons_succ]
      rw [hidx, ih (first + 1) j]

/-- The list `removeItem` returns is the list with the position `index`
erased. -/
theorem removeItem_eq_eraseIdx (items : List Item) (index : Nat) :
    removeItem items index = items.eraseIdx index := by
  have h := filter_enumFrom_eq_eraseIdx items 0 index
  rw [Nat.zero_add] at h
  exact h

/-- The item `addItem` appends has the amount its fields give. -/
theorem amountOk_defaultItem : amountOk defaultItem := by
  simp only [amountOk, defaultItem, parseFloat_num, JSNum.orZero_fin, JSNum.fin_mul_fin,
    JSNum.fin_sub_fin]
  norm_num

/-- One user operation keeps the amounts of all lines in step with their
fields. -/
theorem invoiceStep_amountOk (products : List Product) (items : List Item)
    (event : InvoiceEvent) (h : ∀ item ∈ items, amountOk item) :
    ∀ item ∈ invoiceStep products items event, amountOk item := by
  cases event with
  | add =>
    intro item hi
    simp only [invoiceStep, addItem, List.mem_append, List.mem_singleton] at hi
    rcases hi with hi | hi
    · exact h item hi
    · rw [hi]; exact amountOk_defaultItem
  | remove index =>
    intro item hi
    simp only [invoiceStep, removeItem_eq_eraseIdx] at hi
    exact h item (List.mem_of_mem_eraseIdx hi)
  | update index field value =>
    intro item hi
    by_cases hlt : index < items.length
    · obtain ⟨new, hu, ha⟩ := updateItem_some products items index field value hlt
      simp only [invoiceStep, hu] at hi
      rcases List.mem_or_eq_of_mem_set hi with hi | hi
      · exact h item hi
      · rw [hi]; exact ha
    · have hnone : updateItem products items index field value = none := by
        simp only [updateItem, List.getElem?_eq_none (not_lt.mp hlt)]
      simp only [invoiceStep, hnone] at hi
      exact h item hi

/-- A sequence of user operations keeps the amounts of all lines in step with
their fields. -/
theorem invoiceRun_amountOk (products : List Product) (events : List InvoiceEvent)
    (items : List Item) (h : ∀ item ∈ items, amountOk item) :
    ∀ item ∈ invoiceRun products items events, amountOk item := by
  induction events generalizing items with
  | nil => exact h
  | cons event rest ih =>
    exact ih (invoiceStep products items event) (invoiceStep_amountOk products items event h)

/-- C24: starting from the empty item list, after any sequence of `addItem`,
`removeItem` and `updateItem` every line has the amount
`num(quantity) * num(price) - num(discount)`, where `num(x)` is
`parseFloat(x) || 0`. -/
theorem invoiceRun_invariant (products : List Product) (events : List InvoiceEvent) :
    ∀ item ∈ invoiceRun products [] events,
      item.amount = (parseFloat item.quantity).orZero * (parseFloat item.price).orZero
        - (parseFloat item.discount).orZero :=
  invoiceRun_amountOk products events [] (fun _ h => absurd h (List.not_mem_nil _))

/-- The sample session ends with the one line `firstItem`. -/
theorem invoiceRun_sampleEvents : invoiceRun [] [] sampleEvents = [firstItem] := by
  simp [invoiceRun, sampleEvents, invoiceStep, removeItem_eq_eraseIdx, updateItem, addItem,
    setField, defaultItem, firstItem, parseFloat_five_hundred, parseFloat_two, parseFloat_num,
    JSNum.orZero_fin, JSNum.fin_mul_fin, JSNum.fin_sub_fin]
  norm_num

/-- C24 at the sample session: its one line, quantity `2` at price `500`, has
the amount its fields give. -/
theorem invoiceRun_invariant_witness :
    firstItem ∈ invoiceRun [] [] sampleEvents ∧
    firstItem.amount = (parseFloat firstItem.quantity).orZero
      * (parseFloat firstItem.price).orZero - (parseFloat firstItem.discount).orZero :=
  have h : firstItem ∈ invoiceRun [] [] sampleEvents := by
    rw [invoiceRun_sampleEvents]
    exact List.mem_singleton.mpr rfl
  ⟨h, invoiceRun_invariant [] sampleEvents firstItem h⟩

/-- At an index of the list `updateItem` replaces the line by `updatedLine`. -/
theorem updateItem_eq_set (products : List Product) (items : List Item) (index : Nat)
    (field : Field) (value : JSVal) (old : Item) (h : items[index]? = some old) :
    updateItem products items index field value =
      some (items.set index (updatedLine products old field value)) := by
  simp only [updateItem, h]
  rfl

/-- The line `updatedLine` agrees with the old one on every property but the
named one, the amount and, for `product_id`, the three properties copied from
a product. -/
theorem updatedLine_frame (products : List Product) (old : Item) (field : Field)
    (value : JSVal) (other : Field) (h1 : other ≠ field) (h2 : other ≠ .amount)
    (h3 : field = .product_id →
      other ≠ .product_name ∧ other ≠ .price ∧ other ≠ .tax_rate) :
    getField (updatedLine products old field value) other = getField old other := by
  cases field <;> cases other <;>
    first
    | exact absurd rfl h1
    | exact absurd rfl h2
    | exact absurd rfl (h3 rfl).1
    | exact absurd rfl (h3 rfl).2.1
    | exact absurd rfl (h3 rfl).2.2
    | rfl
    | (simp only [updatedLine, setField, getField, if_true]
       split <;> rfl)

/-- The named property of `updatedLine` holds the value. -/
theorem updatedLine_field (products : List Product) (old : Item) (field : Field)
    (value : JSVal) (h : field ≠ .amount) :
    getField (updatedLine products old field value) field = value := by
  cases field <;>
    first
    | exact absurd rfl h
    | rfl
    | (simp only [updatedLine, setField, getField, if_true]
       split <;> rfl)

/-- C25: at an index of the list, `updateItem(index, field, value)` keeps the
length of the list and every line at another index; the line at the index
keeps every property but the named one (which holds the value), the amount
(which is recomputed) and, when the property is `product_id`, the name, price
and tax rate copied from the product. -/
theorem updateItem_frame (products : List Product) (items : List Item) (index : Nat)
    (field : Field) (value : JSVal) (h : index < items.length) :
    ∃ old new newItems, items[index]? = some old ∧
      updateItem products items index field value = some newItems ∧
      newItems.length = items.length ∧
      (∀ j : Nat, j ≠ index → newItems[j]? = items[j]?) ∧
      newItems[index]? = some new ∧
      (∀ other : Field, other ≠ field → other ≠ .amount →
        (field = .product_id →
          other ≠ .product_name ∧ other ≠ .price ∧ other ≠ .tax_rate) →
        getField new other = getField old other) ∧
      (field ≠ .amount → getField new field = value) ∧
      new.amount = (parseFloat new.quantity).orZero * (parseFloat new.price).orZero
        - (parseFloat new.discount).orZero := by
  have hold : items[index]? = some items[index] := List.getElem?_eq_getElem h
  refine ⟨items[index], updatedLine products items[index] field value,
    items.set index (updatedLine products items[index] field value), hold,
    updateItem_eq_set products items index field value _ hold, List.length_set _ _ _, ?_,
    List.getElem?_set_self h, ?_, updatedLine_field products _ field value, rfl⟩
  · intro j hj
    exact List.getElem?_set_ne (Ne.symm hj)
  · intro other h1 h2 h3
    exact updatedLine_frame products _ field value other h1 h2 h3

/-- C25 at the two lines of the two-item example, when the quantity `2` is
typed into the second one. -/
theorem updateItem_frame_witness :
    1 < [firstItem, secondItem].length ∧
    ∃ old new newItems, [firstItem, secondItem][1]? = some old ∧
      updateItem [] [firstItem, secondItem] 1 .quantity (.str "2") = some newItems ∧
      newItems.length = [firstItem, secondItem].length ∧
      (∀ j : Nat, j ≠ 1 → newItems[j]? = [firstItem, secondItem][j]?) ∧
      newItems[1]? = some new ∧
      (∀ other : Field, other ≠ .quantity → other ≠ .amount →
        (Field.quantity = .product_id →
          other ≠ .product_name ∧ other ≠ .price ∧ other ≠ .tax_rate) →
        getField new other = getField old other) ∧
      (Field.quantity ≠ .amount → getField new .quantity = .str "2") ∧
      new.amount = (parseFloat new.quantity).orZero * (parseFloat new.price).orZero
        - (parseFloat new.discount).orZero :=
  ⟨by simp, updateItem_frame [] [firstItem, secondItem] 1 .quantity (.str "2") (by simp)⟩

/-- C26: `updateItem(index, 'product_id', id)` on the line `old` at an index of
the list. If a product of the list has the id, the first such product gives
the line its name, price and tax rate, and the amount becomes
`quantity * product.price - discount`; if none has it, only `product_id` is
set and the amount is recomputed from the unchanged fields, which leaves it as
it is on every line whose amount is the one its fields give, so on every line
of a list the form has built. -/
theorem updateItem_product (products : List Product) (items : List Item) (index : Nat)
    (id : JSVal) (old : Item) (h : items[index]? = some old) :
    ((∃ p ∈ products, strictEq p.id id = true) →
      ∃ product, products.find? (fun p => strictEq p.id id) = some product) ∧
    (∀ product, products.find? (fun p => strictEq p.id id) = some product →
      product ∈ products ∧ strictEq product.id id = true ∧
      updateItem products items index .product_id id =
        some (items.set index
          { old with
            product_id := id, product_name := product.name, price := product.price,
            tax_rate := product.tax_rate,
            amount := (parseFloat old.quantity).orZero * (parseFloat product.price).orZero
              - (parseFloat old.discount).orZero })) ∧
    ((∀ p ∈ products, strictEq p.id id = false) →
      updateItem products items index .product_id id =
        some (items.set index
          { old with
            product_id := id,
            amount := (parseFloat old.quantity).orZero * (parseFloat old.price).orZero
              - (parseFloat old.discount).orZero }) ∧
      (amountOk old →
        updateItem products items index .product_id id =
          some (items.set index { old with product_id := id })) ∧
      (∀ (loaded : List Product) (events : List InvoiceEvent),
        items = invoiceRun loaded [] events →
        updateItem products items index .product_id id =
          some (items.set index { old with product_id := id }))) := by
  refine ⟨?_, ?_, ?_⟩
  · rintro ⟨p, hp, hid⟩
    cases hf : products.find? (fun p => strictEq p.id id) with
    | some product => exact ⟨product, rfl⟩
    | none =>
      have := (List.find?_eq_none.mp hf) p hp
      exact absurd hid this
  · intro product hf
    have hs : strictEq product.id id = true := by
      have hmem := List.find?_eq_some.mp hf
      exact hmem.1
    refine ⟨List.mem_of_find?_eq_some hf, hs, ?_⟩
    rw [updateItem_eq_set products items index .product_id id old h]
    simp only [updatedLine, setField, if_true, hf]
  · intro hnone
    have hf : products.find? (fun p => strictEq p.id id) = none := by
      rw [List.find?_eq_none]
      intro p hp
      simp [hnone p hp]
    have hu : updateItem products items index .product_id id =
        some (items.set index
          { old with
            product_id := id,
            amount := (parseFloat old.quantity).orZero * (parseFloat old.price).orZero
              - (parseFloat old.discount).orZero }) := by
      rw [updateItem_eq_set products items index .product_id id old h]
      simp only [updatedLine, setField, if_true, hf]
    have hkeep : amountOk old →
        updateItem products items index .product_id id =
          some (items.set index { old with product_id := id }) := by
      intro hok
      rw [hu]
      unfold amountOk at hok
      rw [← hok]
    refine ⟨hu, hkeep, ?_⟩
    intro loaded events hrun
    apply hkeep
    have hmem : old ∈ items := List.getElem?_mem h
    rw [hrun] at hmem
    exact invoiceRun_amountOk loaded events []
      (fun _ hx => absurd hx (List.not_mem_nil _)) old hmem

/-- Choosing the product `p-2` on the line of quantity `2`. -/
theorem updateItem_choose_inverter :
    updateItem sampleProducts [firstItem] 0 .product_id (.str "p-2") =
      some [{ firstItem with
        product_id := .str "p-2", product_name := .str "Inverter",
        price := .num (.fin 45000), tax_rate := .num (.fin 18), amount := .fin 90000 }] := by
  simp [updateItem, sampleProducts, strictEq, setField, firstItem, defaultItem, parseFloat_two,
    parseFloat_num, JSNum.orZero_fin, JSNum.fin_mul_fin, JSNum.fin_sub_fin]
  norm_num

/-- C26 at the line of quantity `2` and the product list `sampleProducts`:
choosing the product `p-2` gives the line its name, price and tax rate, and
the amount `2 * 45000 - 0`. -/
theorem updateItem_product_witness :
    [firstItem][0]? = some firstItem ∧
    sampleProducts.find? (fun p => strictEq p.id (.str "p-2")) =
      some { id := .str "p-2", name := .str "Inverter", price := .num (.fin 45000),
             tax_rate := .num (.fin 18) } ∧
    updateItem sampleProducts [firstItem] 0 .product_id (.str "p-2") =
      some ([firstItem].set 0
        { firstItem with
          product_id := .str "p-2", product_name := .str "Inverter",
          price := .num (.fin 45000), tax_rate := .num (.fin 18),
          amount := (parseFloat firstItem.quantity).orZero
            * (parseFloat (JSVal.num (.fin 45000))).orZero
            - (parseFloat firstItem.discount).orZero }) :=
  have hf : sampleProducts.find? (fun p => strictEq p.id (.str "p-2")) =
      some { id := .str "p-2", name := .str "Inverter", price := .num (.fin 45000),
             tax_rate := .num (.fin 18) } := by
    simp [sampleProducts, strictEq]
  ⟨rfl, hf,
    ((updateItem_product sampleProducts [firstItem] 0 (.str "p-2") firstItem rfl).2.1 _ hf).2.2⟩

/-! ## Removing and adding a line -/

/-- Adding a finite number and taking it away again gives the number back. -/
theorem JSNum.add_sub_cancel_fin (x : JSNum) (r : ℚ) : x + .fin r - .fin r = x := by
  simp only [JSNum.add_def, JSNum.sub_def]
  cases x <;> simp [JSNum.add, JSNum.neg]

/-- The exact sum of the amounts of a list is the sum of the amounts without
one line, plus the amount of that line. -/
theorem sum_amount_eraseIdx (items : List Item) (index : Nat) (removed : Item)
    (h : items[index]? = some removed) :
    (items.map (fun item => item.amount)).sum =
      ((items.eraseIdx index).map (fun item => item.amount)).sum + removed.amount := by
  obtain ⟨hlt, hget⟩ := List.getElem?_eq_some.mp h
  have hsplit : items = items.take index ++ removed :: items.drop (index + 1) := by
    have h1 := List.take_append_drop index items
    rw [List.drop_eq_getElem_cons hlt] at h1
    rw [← hget]
    exact h1.symm
  have hperm : items.Perm (removed :: items.eraseIdx index) := by
    rw [List.eraseIdx_eq_take_drop_succ]
    have := @List.perm_middle _ removed (items.take index) (items.drop (index + 1))
    rw [← hsplit] at this
    exact this
  rw [JSNum.sum_perm (hperm.map _), List.map_cons, List.sum_cons, JSNum.add_comm']

/-- C27, as stated, fails on the machine: removing the line with the amount
`0.3` (binary64) from the lines with the amounts `0.1`, `0.2`, `0.3` takes the
subtotal from `0.6000000000000001` to `0.30000000000000004`; the drop is
`0.30000000000000004`, not the amount removed. -/
theorem subtotal64_remove_drop :
    removeItem [tenthItem, fifthItem, threeTenthsItem] 2 = [tenthItem, fifthItem] ∧
    [tenthItem, fifthItem, threeTenthsItem][2]? = some threeTenthsItem ∧
    threeTenthsItem.amount = .fin (5404319552844595 / 2 ^ 54) ∧
    subtotal64 [tenthItem, fifthItem, threeTenthsItem] = .fin (5404319552844596 / 2 ^ 53) ∧
    subtotal64 (removeItem [tenthItem, fifthItem, threeTenthsItem] 2)
      = .fin (5404319552844596 / 2 ^ 54) ∧
    subtotal64 [tenthItem, fifthItem, threeTenthsItem]
        - subtotal64 (removeItem [tenthItem, fifthItem, threeTenthsItem] 2)
      = .fin (5404319552844596 / 2 ^ 54) ∧
    subtotal64 [tenthItem, fifthItem, threeTenthsItem]
        - subtotal64 (removeItem [tenthItem, fifthItem, threeTenthsItem] 2)
      ≠ threeTenthsItem.amount := by
  have hr : removeItem [tenthItem, fifthItem, threeTenthsItem] 2 = [tenthItem, fifthItem] := by
    rw [removeItem_eq_eraseIdx]
    rfl
  have h3 : subtotal64 [tenthItem, fifthItem, threeTenthsItem]
      = .fin (5404319552844596 / 2 ^ 53) := by
    simp only [subtotal64, List.foldl_cons, List.foldl_nil, tenthItem, fifthItem,
      threeTenthsItem, JSNum.fin_add_fin, zero_add, round64_tenth_fixed,
      round64_tenth_add_fifth, round64_add_three_tenths]
  have h2 : subtotal64 [tenthItem, fifthItem] = .fin (5404319552844596 / 2 ^ 54) := by
    simp only [subtotal64, List.foldl_cons, List.foldl_nil, tenthItem, fifthItem,
      JSNum.fin_add_fin, zero_add, round64_tenth_fixed, round64_tenth_add_fifth]
  have hd : subtotal64 [tenthItem, fifthItem, threeTenthsItem]
      - subtotal64 (removeItem [tenthItem, fifthItem, threeTenthsItem] 2)
      = .fin (5404319552844596 / 2 ^ 54) := by
    rw [hr, h3, h2, JSNum.fin_sub_fin]
    norm_num
  refine ⟨hr, rfl, rfl, h3, ?_, hd, ?_⟩
  · rw [hr, h2]
  · rw [hd]
    simp only [threeTenthsItem, ne_eq, JSNum.fin.injEq]
    norm_num

/-- C27, amended: `removeItem(index)` returns the lines before the index
followed by the lines after it; when the index is out of range that is the
whole list; when `removed` is the line at the index, the list is one shorter
and, with exact additions, the subtotal of `calculateTotals` is the new
subtotal plus the amount removed (it drops by that amount when it is
finite). -/
theorem removeItem_spec (items : List Item) (index : Nat) (formData : InvoiceFormData) :
    removeItem items index = items.take index ++ items.drop (index + 1) ∧
    (items.length ≤ index → removeItem items index = items) ∧
    (∀ removed, items[index]? = some removed →
      (removeItem items index).length + 1 = items.length ∧
      (calculateTotals items formData).subtotal =
        (calculateTotals (removeItem items index) formData).subtotal + removed.amount ∧
      (∀ r : ℚ, removed.amount = .fin r →
        (calculateTotals (removeItem items index) formData).subtotal =
          (calculateTotals items formData).subtotal - .fin r)) := by
  refine ⟨?_, ?_, ?_⟩
  · rw [removeItem_eq_eraseIdx, List.eraseIdx_eq_take_drop_succ]
  · intro hle
    rw [removeItem_eq_eraseIdx, List.eraseIdx_of_length_le hle]
  · intro removed hrem
    obtain ⟨hlt, _⟩ := List.getElem?_eq_some.mp hrem
    have hsub : (calculateTotals items formData).subtotal =
        (calculateTotals (removeItem items index) formData).subtotal + removed.amount := by
      rw [calculateTotals_subtotal, calculateTotals_subtotal, removeItem_eq_eraseIdx]
      exact sum_amount_eraseIdx items index removed hrem
    refine ⟨?_, hsub, ?_⟩
    · rw [removeItem_eq_eraseIdx, List.length_eraseIdx_of_lt hlt]
      omega
    · intro r hr
      rw [hsub, hr, JSNum.add_sub_cancel_fin]

/-- C27, amended, at the two lines of the two-item example: removing the
second one, with the amount `250`, leaves the first one and takes the
subtotal down by `250`. -/
theorem removeItem_spec_witness :
    [firstItem, secondItem][1]? = some secondItem ∧ secondItem.amount = .fin 250 ∧
    (removeItem [firstItem, secondItem] 1).length + 1 = [firstItem, secondItem].length ∧
    (calculateTotals [firstItem, secondItem] plainFormData).subtotal =
      (calculateTotals (removeItem [firstItem, secondItem] 1) plainFormData).subtotal
        + secondItem.amount ∧
    (calculateTotals (removeItem [firstItem, secondItem] 1) plainFormData).subtotal =
      (calculateTotals [firstItem, secondItem] plainFormData).subtotal - .fin 250 ∧
    ([firstItem].length ≤ 1 ∧ removeItem [firstItem] 1 = [firstItem]) :=
  ⟨rfl, rfl,
    ((removeItem_spec [firstItem, secondItem] 1 plainFormData).2.2 secondItem rfl).1,
    ((removeItem_spec [firstItem, secondItem] 1 plainFormData).2.2 secondItem rfl).2.1,
    ((removeItem_spec [firstItem, secondItem] 1 plainFormData).2.2 secondItem rfl).2.2 250 rfl,
    by simp, (removeItem_spec [firstItem] 1 plainFormData).2.1 (by simp)⟩

/-- C28: `addItem` appends the default line (quantity `1`, price `0`, tax rate
`18`, discount `0`, amount `0`, no product) at the end of the list, keeps
every line that was there, and leaves the subtotal, the tax and the total of
`calculateTotals` as they were. -/
theorem addItem_spec (items : List Item) (formData : InvoiceFormData) :
    addItem items = items ++ [defaultItem] ∧
    (defaultItem.product_id = .str "" ∧ defaultItem.product_name = .str "" ∧
      defaultItem.quantity = .num (.fin 1) ∧ defaultItem.price = .num (.fin 0) ∧
      defaultItem.tax_rate = .num (.fin 18) ∧ defaultItem.discount = .num (.fin 0) ∧
      defaultItem.amount = .fin 0) ∧
    (addItem items).length = items.length + 1 ∧
    (∀ j : Nat, j < items.length → (addItem items)[j]? = items[j]?) ∧
    (addItem items)[items.length]? = some defaultItem ∧
    calculateTotals (addItem items) formData = calculateTotals items formData := by
  refine ⟨rfl, ⟨rfl, rfl, rfl, rfl, rfl, rfl, rfl⟩, ?_, ?_, ?_, ?_⟩
  · simp [addItem]
  · intro j hj
    simp only [addItem]
    exact List.getElem?_append_left hj
  · simp [addItem]
  · have hz : (JSNum.fin 0 * JSNum.fin 18) / JSNum.fin 100 = JSNum.fin 0 := by
      rw [JSNum.fin_mul_fin, JSNum.fin_div_fin _ _ (by norm_num)]
      norm_num
    simp only [calculateTotals, addItem, List.foldl_append, List.foldl_cons, List.foldl_nil,
      defaultItem, toNumber_num, hz, JSNum.add_fin_zero]

/-- C28 at the list of the one line of quantity `2`: the line stays at
position `0`. -/
theorem addItem_spec_witness :
    0 < [firstItem].length ∧ (addItem [firstItem])[0]? = [firstItem][0]? :=
  ⟨by simp, (addItem_spec [firstItem] plainFormData).2.2.2.1 0 (by simp)⟩

/-! ## Submitting the invoice -/

/-- C29: `handleSubmit` sends the request exactly when a customer is selected
and the item list is not empty, and then with the form data and the items;
when the customer is missing or there is no item it shows an error, sends
nothing and calls no state setter. -/
theorem handleSubmit_guard (formData : InvoiceFormData) (items : List Item)
    (loading : Bool) :
    ((∃ body lines, handleSubmit formData items = .postInvoice body lines) ↔
      (formData.customer_id.truthy = true ∧ items ≠ [])) ∧
    (formData.customer_id.truthy = true → items ≠ [] →
      handleSubmit formData items = .postInvoice formData items) ∧
    (formData.customer_id.truthy = false →
      handleSubmit formData items = .toastError "Please select a customer" ∧
      handleSubmitState { formData := formData, items := items, loading := loading } =
        { formData := formData, items := items, loading := loading }) ∧
    (formData.customer_id.truthy = true → items = [] →
      handleSubmit formData items = .toastError "Please add at least one item" ∧
      handleSubmitState { formData := formData, items := items, loading := loading } =
        { formData := formData, items := items, loading := loading }) ∧
    JSVal.truthy (.str "") = false := by
  have hpost : formData.customer_id.truthy = true → items ≠ [] →
      handleSubmit formData items = .postInvoice formData items :=
    handleSubmit_posts formData items
  have hno : formData.customer_id.truthy = false →
      handleSubmit formData items = .toastError "Please select a customer" := by
    intro hc
    simp [handleSubmit, hc]
  have hempty : formData.customer_id.truthy = true → items = [] →
      handleSubmit formData items = .toastError "Please add at least one item" := by
    intro hc hi
    simp [handleSubmit, hc, hi]
  refine ⟨⟨?_, ?_⟩, hpost, ?_, ?_, ?_⟩
  · rintro ⟨body, lines, hp⟩
    cases hc : formData.customer_id.truthy with
    | false => rw [hno hc] at hp; cases hp
    | true =>
      refine ⟨rfl, ?_⟩
      intro hi
      rw [hempty hc hi] at hp
      cases hp
  · rintro ⟨hc, hi⟩
    exact ⟨formData, items, hpost hc hi⟩
  · intro hc
    refine ⟨hno hc, ?_⟩
    simp only [handleSubmitState, hno hc]
  · intro hc hi
    refine ⟨hempty hc hi, ?_⟩
    simp only [handleSubmitState, hempty hc hi]
  · simp [JSVal.truthy]

/-- C29 on three forms: with a customer and a line the request is sent; with a
customer and no line, and with a line and no customer, nothing is sent and the
state stays. -/
theorem handleSubmit_guard_witness :
    ((formWithDiscount "0").customer_id.truthy = true ∧ [firstItem] ≠ [] ∧
      handleSubmit (formWithDiscount "0") [firstItem] =
        .postInvoice (formWithDiscount "0") [firstItem]) ∧
    ((formWithDiscount "0").customer_id.truthy = true ∧
      handleSubmit (formWithDiscount "0") [] = .toastError "Please add at least one item" ∧
      handleSubmitState { formData := formWithDiscount "0", items := [], loading := false } =
        { formData := formWithDiscount "0", items := [], loading := false }) ∧
    (plainFormData.customer_id.truthy = false ∧
      handleSubmit plainFormData [firstItem] = .toastError "Please select a customer" ∧
      handleSubmitState { formData := plainFormData, items := [firstItem], loading := false } =
        { formData := plainFormData, items := [firstItem], loading := false }) :=
  have hc : (formWithDiscount "0").customer_id.truthy = true := by
    simp [formWithDiscount, JSVal.truthy]
  have hn : plainFormData.customer_id.truthy = false := by
    simp [plainFormData, JSVal.truthy]
  ⟨⟨hc, by simp, (handleSubmit_guard (formWithDiscount "0") [firstItem] false).2.1 hc (by simp)⟩,
    ⟨hc, (handleSubmit_guard (formWithDiscount "0") [] false).2.2.2.1 hc rfl⟩,
    ⟨hn, (handleSubmit_guard plainFormData [firstItem] false).2.2.1 hn⟩⟩

/-! ## The first two tiers on the machine -/

/-- The machine subsidy of a capacity that is read as the finite binary64
number `kw`. -/
theorem calculateSubsidy64_of_fin {capacity : JSVal} {kw : ℚ}
    (h : (parseFloat capacity).round64 = .fin kw) :
    calculateSubsidy64 capacity =
      if kw ≤ 0 then .fin 0
      else if kw ≤ 2 then (JSNum.fin kw * .fin 30000).round64
      else if kw ≤ 3 then
        (.fin 60000 + ((JSNum.fin kw - .fin 2).round64 * .fin 18000).round64).round64
      else .fin 78000 := by
  simp only [calculateSubsidy64, h, JSNum.isNaN, JSNum.le, Bool.false_or, decide_eq_true_eq]

/-- Evaluates the parsers on a string literal. -/
theorem parseFloat_point_twenty_seven : parseFloat (.str "0.27") = .fin (27 / 100) := by
  simp [parseFloat, strDecimalLiteral, strUnsignedDecimalLiteral, matchLiteral, exponentPart,
    digitsToNat, pow10, isWhiteSpace, List.takeWhile, List.dropWhile, Char.isDigit]
  norm_num

/-- Evaluates the parsers on a string literal. -/
theorem parseFloat_two_point_zero_one : parseFloat (.str "2.01") = .fin (201 / 100) := by
  simp [parseFloat, strDecimalLiteral, strUnsignedDecimalLiteral, matchLiteral, exponentPart,
    digitsToNat, pow10, isWhiteSpace, List.takeWhile, List.dropWhile, Char.isDigit]
  norm_num

/-- The binary64 number nearest to `0.27`. -/
theorem round64_point_twenty_seven :
    JSNum.round64 (.fin (27 / 100)) = .fin (607985949695017 / 2 ^ 51) := by
  rw [JSNum.round64_eq (27 / 100) (-2) 4863887597560135 4863887597560136 (by norm_num)
    (by norm_num) (by norm_num) (by norm_num) (by norm_num) (by norm_num) (by norm_num)
    (by norm_num [abs_of_pos])]
  norm_num

/-- The binary64 product of the binary64 `0.27` and `30000`: `8100.000000000001`. -/
theorem round64_point_twenty_seven_rate :
    JSNum.round64 (.fin (607985949695017 / 2 ^ 51 * 30000)) = .fin (8906044184985601 / 2 ^ 40) := by
  rw [JSNum.round64_eq (607985949695017 / 2 ^ 51 * 30000) (12) 8906044184985600 8906044184985601 (by norm_num)
    (by norm_num) (by norm_num) (by norm_num) (by norm_num) (by norm_num) (by norm_num)
    (by norm_num [abs_of_pos])]
  norm_num

/-- The binary64 number nearest to `2.01`. -/
theorem round64_two_point_zero_one :
    JSNum.round64 (.fin (201 / 100)) = .fin (1131529406376837 / 2 ^ 49) := by
  rw [JSNum.round64_eq (201 / 100) (1) 4526117625507348 4526117625507348 (by norm_num)
    (by norm_num) (by norm_num) (by norm_num) (by norm_num) (by norm_num) (by norm_num)
    (by norm_num [abs_of_pos])]
  norm_num

/-- The binary64 difference of the binary64 `2.01` and `2` is exact. -/
theorem round64_two_point_zero_one_sub :
    JSNum.round64 (.fin (1131529406376837 / 2 ^ 49 - 2)) = .fin (5629499534213 / 2 ^ 49) := by
  rw [JSNum.round64_eq (1131529406376837 / 2 ^ 49 - 2) (-7) 5764607523034112 5764607523034112 (by norm_num)
    (by norm_num) (by norm_num) (by norm_num) (by norm_num) (by norm_num) (by norm_num)
    (by norm_num [abs_of_pos])]
  norm_num

/-- The binary64 product of that difference and `18000` is exact. -/
theorem round64_two_point_zero_one_rate :
    JSNum.round64 (.fin (5629499534213 / 2 ^ 49 * 18000)) = .fin (6333186975989625 / 2 ^ 45) := by
  rw [JSNum.round64_eq (5629499534213 / 2 ^ 49 * 18000) (7) 6333186975989625 6333186975989625 (by norm_num)
    (by norm_num) (by norm_num) (by norm_num) (by norm_num) (by norm_num) (by norm_num)
    (by norm_num [abs_of_pos])]
  norm_num

/-- The binary64 sum of `60000` and that product: `60179.99999999999`. -/
theorem round64_two_point_zero_one_sum :
    JSNum.round64 (.fin (60000 + 6333186975989625 / 2 ^ 45)) = .fin (8271076219944959 / 2 ^ 37) := by
  rw [JSNum.round64_eq (60000 + 6333186975989625 / 2 ^ 45) (15) 8271076219944959 8271076219944959 (by norm_num)
    (by norm_num) (by norm_num) (by norm_num) (by norm_num) (by norm_num) (by norm_num)
    (by norm_num [abs_of_pos])]
  norm_num

/-- C1, as stated, fails on the machine: the capacity `0.27` is read as the
binary64 number `kw` nearest to it, with `0 < kw ≤ 2`, and the subsidy
computed is `8100.000000000001`, which is neither `kw * 30000` nor
`0.27 * 30000`. -/
theorem calculateSubsidy64_tier1_inexact :
    parseFloat (.str "0.27") = .fin (27 / 100) ∧
    (parseFloat (.str "0.27")).round64 = .fin (607985949695017 / 2 ^ 51) ∧
    (0 : ℚ) < 607985949695017 / 2 ^ 51 ∧ (607985949695017 / 2 ^ 51 : ℚ) ≤ 2 ∧
    calculateSubsidy64 (.str "0.27") = .fin (8906044184985601 / 2 ^ 40) ∧
    calculateSubsidy64 (.str "0.27") ≠ JSNum.fin (607985949695017 / 2 ^ 51 * 30000) ∧
    calculateSubsidy64 (.str "0.27") ≠ JSNum.fin (27 / 100 * 30000) := by
  have hk : (parseFloat (.str "0.27")).round64 = .fin (607985949695017 / 2 ^ 51) := by
    rw [parseFloat_point_twenty_seven, round64_point_twenty_seven]
  have hv : calculateSubsidy64 (.str "0.27") = .fin (8906044184985601 / 2 ^ 40) := by
    rw [calculateSubsidy64_of_fin hk, if_neg (by norm_num), if_pos (by norm_num),
      JSNum.fin_mul_fin, round64_point_twenty_seven_rate]
  refine ⟨parseFloat_point_twenty_seven, hk, by norm_num, by norm_num, hv, ?_, ?_⟩
  · rw [hv]
    simp only [ne_eq, JSNum.fin.injEq]
    norm_num
  · rw [hv]
    simp only [ne_eq, JSNum.fin.injEq]
    norm_num

/-- C1, amended: a capacity `kw` with `0 < kw ≤ 2` gets the subsidy
`kw * 30000`, exactly so in exact arithmetic, and on the machine as the
product rounded to the nearest binary64 number. -/
theorem calculateSubsidy_tier1 (capacity : JSVal) :
    (∀ kw : ℚ, parseFloat capacity = .fin kw → 0 < kw → kw ≤ 2 →
      calculateSubsidy capacity = .fin (kw * 30000)) ∧
    (∀ kw : ℚ, (parseFloat capacity).round64 = .fin kw → 0 < kw → kw ≤ 2 →
      calculateSubsidy64 capacity = (JSNum.fin (kw * 30000)).round64) := by
  constructor
  · intro kw hkw h0 h2
    exact calculateSubsidy_tier1_exact capacity kw hkw h0 h2
  · intro kw hkw h0 h2
    rw [calculateSubsidy64_of_fin hkw, if_neg (not_le.mpr h0), if_pos h2, JSNum.fin_mul_fin]

/-- C1, amended, at the input string `0.27`: in exact arithmetic the subsidy is
`0.27 * 30000`; on the machine it is the rounded product of the binary64
`0.27` and `30000`, which is `8100.000000000001`. -/
theorem calculateSubsidy_tier1_witness :
    (parseFloat (.str "0.27") = .fin (27 / 100) ∧ (0 : ℚ) < 27 / 100 ∧ (27 / 100 : ℚ) ≤ 2 ∧
      calculateSubsidy (.str "0.27") = .fin (27 / 100 * 30000)) ∧
    ((parseFloat (.str "0.27")).round64 = .fin (607985949695017 / 2 ^ 51) ∧
      (0 : ℚ) < 607985949695017 / 2 ^ 51 ∧ (607985949695017 / 2 ^ 51 : ℚ) ≤ 2 ∧
      calculateSubsidy64 (.str "0.27")
        = (JSNum.fin (607985949695017 / 2 ^ 51 * 30000)).round64 ∧
      (JSNum.fin (607985949695017 / 2 ^ 51 * 30000)).round64
        = .fin (8906044184985601 / 2 ^ 40)) :=
  have hk : (parseFloat (.str "0.27")).round64 = .fin (607985949695017 / 2 ^ 51) := by
    rw [parseFloat_point_twenty_seven, round64_point_twenty_seven]
  ⟨⟨parseFloat_point_twenty_seven, by norm_num, by norm_num,
      (calculateSubsidy_tier1 (.str "0.27")).1 (27 / 100) parseFloat_point_twenty_seven
        (by norm_num) (by norm_num)⟩,
    ⟨hk, by norm_num, by norm_num,
      (calculateSubsidy_tier1 (.str "0.27")).2 (607985949695017 / 2 ^ 51) hk (by norm_num)
        (by norm_num),
      round64_point_twenty_seven_rate⟩⟩

/-- C2, as stated, fails on the machine: the capacity `2.01` is read as the
binary64 number `kw` nearest to it, with `2 < kw ≤ 3`, and the subsidy
computed is `60179.99999999999`, which is neither `60000 + (kw - 2) * 18000`
nor `60000 + (2.01 - 2) * 18000`. -/
theorem calculateSubsidy64_tier2_inexact :
    parseFloat (.str "2.01") = .fin (201 / 100) ∧
    (parseFloat (.str "2.01")).round64 = .fin (1131529406376837 / 2 ^ 49) ∧
    (2 : ℚ) < 1131529406376837 / 2 ^ 49 ∧ (1131529406376837 / 2 ^ 49 : ℚ) ≤ 3 ∧
    calculateSubsidy64 (.str "2.01") = .fin (8271076219944959 / 2 ^ 37) ∧
    calculateSubsidy64 (.str "2.01")
      ≠ JSNum.fin (60000 + (1131529406376837 / 2 ^ 49 - 2) * 18000) ∧
    calculateSubsidy64 (.str "2.01") ≠ JSNum.fin (60000 + (201 / 100 - 2) * 18000) := by
  have hk : (parseFloat (.str "2.01")).round64 = .fin (1131529406376837 / 2 ^ 49) := by
    rw [parseFloat_two_point_zero_one, round64_two_point_zero_one]
  have hv : calculateSubsidy64 (.str "2.01") = .fin (8271076219944959 / 2 ^ 37) := by
    rw [calculateSubsidy64_of_fin hk, if_neg (by norm_num), if_neg (by norm_num),
      if_pos (by norm_num), JSNum.fin_sub_fin, round64_two_point_zero_one_sub,
      JSNum.fin_mul_fin, round64_two_point_zero_one_rate, JSNum.fin_add_fin,
      round64_two_point_zero_one_sum]
  refine ⟨parseFloat_two_point_zero_one, hk, by norm_num, by norm_num, hv, ?_, ?_⟩
  · rw [hv]
    simp only [ne_eq, JSNum.fin.injEq]
    norm_num
  · rw [hv]
    simp only [ne_eq, JSNum.fin.injEq]
    norm_num

/-- C2, amended: a capacity `kw` with `2 < kw ≤ 3` gets the subsidy
`60000 + (kw - 2) * 18000`, exactly so in exact arithmetic, and on the machine
with the difference, the product and the sum each rounded to the nearest
binary64 number. -/
theorem calculateSubsidy_tier2 (capacity : JSVal) :
    (∀ kw : ℚ, parseFloat capacity = .fin kw → 2 < kw → kw ≤ 3 →
      calculateSubsidy capacity = .fin (60000 + (kw - 2) * 18000)) ∧
    (∀ kw : ℚ, (parseFloat capacity).round64 = .fin kw → 2 < kw → kw ≤ 3 →
      calculateSubsidy64 capacity =
        (.fin 60000 + ((JSNum.fin (kw - 2)).round64 * .fin 18000).round64).round64) := by
  constructor
  · intro kw hkw h2 h3
    exact calculateSubsidy_tier2_exact capacity kw hkw h2 h3
  · intro kw hkw h2 h3
    rw [calculateSubsidy64_of_fin hkw, if_neg (by linarith), if_neg (not_le.mpr h2), if_pos h3,
      JSNum.fin_sub_fin]

/-- C2, amended, at the input string `2.01`: in exact arithmetic the subsidy is
`60000 + (2.01 - 2) * 18000`; on the machine it is computed from the binary64
`2.01` with three rounded operations, which gives `60179.99999999999`. -/
theorem calculateSubsidy_tier2_witness :
    (parseFloat (.str "2.01") = .fin (201 / 100) ∧ (2 : ℚ) < 201 / 100 ∧
      (201 / 100 : ℚ) ≤ 3 ∧
      calculateSubsidy (.str "2.01") = .fin (60000 + (201 / 100 - 2) * 18000)) ∧
    ((parseFloat (.str "2.01")).round64 = .fin (1131529406376837 / 2 ^ 49) ∧
      (2 : ℚ) < 1131529406376837 / 2 ^ 49 ∧ (1131529406376837 / 2 ^ 49 : ℚ) ≤ 3 ∧
      calculateSubsidy64 (.str "2.01") =
        (.fin 60000 + ((JSNum.fin (1131529406376837 / 2 ^ 49 - 2)).round64
          * .fin 18000).round64).round64) :=
  have hk : (parseFloat (.str "2.01")).round64 = .fin (1131529406376837 / 2 ^ 49) := by
    rw [parseFloat_two_point_zero_one, round64_two_point_zero_one]
  ⟨⟨parseFloat_two_point_zero_one, by norm_num, by norm_num,
      (calculateSubsidy_tier2 (.str "2.01")).1 (201 / 100) parseFloat_two_point_zero_one
        (by norm_num) (by norm_num)⟩,
    ⟨hk, by norm_num, by norm_num,
      (calculateSubsidy_tier2 (.str "2.01")).2 (1131529406376837 / 2 ^ 49) hk (by norm_num)
        (by norm_num)⟩⟩

end BillBook
